import Mathlib

/-!
Verification development for the C++ maze rollout simulator
(cpp_simulator: constants.hpp, game_state.hpp, simulator.hpp, simulator.cpp,
bindings.cpp).  The simulator's functions are shallowly embedded as
executable Lean definitions and key properties of the embedding are proved.

Modelling conventions:
* C++ ints (int8_t, int16_t, int32_t, int) are modelled as Int; the values
  involved never approach any word-size bound, so no wrap-around modelling
  is needed.
* 11x11 grids (std::array<std::array<int8_t,11>,11>) are 121-element
  row-major Int lists; cell (x,y) lives at flat index x*11+y.  Out-of-range
  accesses (undefined behaviour in C++) read a default 0 / write nothing;
  every semantically relevant access in the source is guarded by is_valid.
* std::mt19937 with uniform_int_distribution(0,n) is modelled by an
  abstract stream rng : Nat -> Nat with a running index; one draw reads
  rng k % (n+1) and advances the index.  No verified claim depends on the
  concrete distribution of the stream.
* The while-BFS of the distance maps runs on a fuel budget (1000), far
  above the at most 242 iterations possible on a 121-cell board; all the
  properties proved about it hold for every fuel value.
* The recursion of process_commands through the function-call tokens is
  metered by an explicit call-depth fuel; a run that exhausts the fuel
  returns none.  This is the only source of partiality in the embedding.
* The external function library (function_library.hpp, not part of the
  sources) is an abstract parameter getF : Int -> List Int.
-/

namespace MouseSim

/-- Direction x-delta, from Direction::DX = {-1, 1, 0, 0} (constants.hpp). -/
def dirDX (d : Int) : Int := if d = 0 then -1 else if d = 1 then 1 else 0

/-- Direction y-delta, from Direction::DY = {0, 0, -1, 1} (constants.hpp). -/
def dirDY (d : Int) : Int := if d = 2 then -1 else if d = 3 then 1 else 0

/-- Opposite direction, from Direction::OPPOSITE = {1, 0, 3, 2}.  Indexing
with a value outside 0..3 is undefined behaviour in C++; the embedding
totalises it with -2, a value distinct from every possible draw. -/
def OPPOSITE (d : Int) : Int :=
  if d = 0 then 1 else if d = 1 then 0 else if d = 2 then 3 else
  if d = 3 then 2 else -2

/-- A 2-D board position (struct Position, game_state.hpp). -/
structure Pos where
  x : Int
  y : Int
deriving DecidableEq

/-- Position::move (game_state.hpp). -/
def Pos.move (p : Pos) (d : Int) : Pos := ⟨p.x + dirDX d, p.y + dirDY d⟩

/-- Position::is_valid (game_state.hpp): both coordinates in [0, 11). -/
def Pos.is_valid (p : Pos) : Prop :=
  0 ≤ p.x ∧ p.x < 11 ∧ 0 ≤ p.y ∧ p.y < 11

instance (p : Pos) : Decidable p.is_valid := by
  unfold Pos.is_valid; infer_instance

/-- Row-major flat index of a cell (grids are stored as 121-element lists). -/
def gidx (p : Pos) : Nat := (p.x * 11 + p.y).toNat

/-- An 11x11 integer grid, row-major, 121 entries. -/
abbrev Grid := List Int

/-- Read a grid cell (grid[x][y] in the source). -/
def readG (g : Grid) (p : Pos) : Int := g.getD (gidx p) 0

/-- Write a grid cell (grid[x][y] = v in the source). -/
def writeG (g : Grid) (p : Pos) (v : Int) : Grid := g.set (gidx p) v

/-- The four scan directions 0..3 (for dir = 0; dir < Direction::COUNT). -/
def dirs4 : List Int := [0, 1, 2, 3]

/-- Fuel budget for the BFS while-loop; each loop iteration pops one queue
entry and the queue can only ever receive 1 + 120 entries on a 121-cell
board, so 1000 dominates every possible run. -/
def BFS_FUEL : Nat := 1000

/-- Neighbour scan of one BFS step in GlobalDistanceCache::compute_distance_map
(simulator.cpp lines 67-74): a neighbour that is valid and still holds 0 is
assigned curr_dist + 1 and appended to the queue. -/
def cache_visit (curr_dist : Int) (curr : Pos) :
    List Int → List Pos → Grid → List Pos × Grid
  | [], q, m => (q, m)
  | d :: ds, q, m =>
    let next := curr.move d
    if next.is_valid ∧ readG m next = 0 then
      cache_visit curr_dist curr ds (q ++ [next]) (writeG m next (curr_dist + 1))
    else
      cache_visit curr_dist curr ds q m

/-- The BFS while-loop of GlobalDistanceCache::compute_distance_map
(simulator.cpp lines 61-75), run on a fuel budget. -/
def cache_bfs : Nat → List Pos → Grid → Grid
  | 0, _, m => m
  | _ + 1, [], m => m
  | fuel + 1, curr :: rest, m =>
    let cd := readG m curr
    let qm := cache_visit cd curr dirs4 rest m
    cache_bfs fuel qm.1 qm.2

/-- GlobalDistanceCache::compute_distance_map (simulator.cpp lines 41-78):
initialise walls to -1 and the rest to 0, seed the start cell with 1, BFS. -/
def compute_distance_map (wall : Grid) (start_row start_col : Int) : Grid :=
  let dist0 : Grid :=
    (List.range 121).map (fun i => if wall.getD i 0 ≠ 0 then -1 else 0)
  let start : Pos := ⟨start_row, start_col⟩
  cache_bfs BFS_FUEL [start] (writeG dist0 start 1)

/-- GlobalDistanceCache::initialize (simulator.cpp lines 80-96): one distance
map per cell, for all 121 cells, row = pos / 11, col = pos % 11. -/
def cache_build (wall : Grid) : List Grid :=
  (List.range 121).map
    (fun p => compute_distance_map wall ((p / 11 : Nat) : Int) ((p % 11 : Nat) : Int))

/-- GlobalDistanceCache::get (simulator.hpp lines 34-36). -/
def cache_get (cache : List Grid) (row col : Int) : Grid :=
  cache.getD (row * 11 + col).toNat []

/-- Neighbour scan of one BFS step in the uncached branch of
Simulator::create_distance_map (simulator.cpp lines 152-159). -/
def direct_visit (curr_dist : Int) (curr : Pos) :
    List Int → List Pos → Grid → List Pos × Grid
  | [], q, m => (q, m)
  | d :: ds, q, m =>
    let next := curr.move d
    if next.is_valid ∧ readG m next = 0 then
      direct_visit curr_dist curr ds (q ++ [next]) (writeG m next (curr_dist + 1))
    else
      direct_visit curr_dist curr ds q m

/-- The BFS while-loop of the uncached branch of Simulator::create_distance_map
(simulator.cpp lines 146-160). -/
def direct_bfs : Nat → List Pos → Grid → Grid
  | 0, _, m => m
  | _ + 1, [], m => m
  | fuel + 1, curr :: rest, m =>
    let cd := readG m curr
    let qm := direct_visit cd curr dirs4 rest m
    direct_bfs fuel qm.1 qm.2

/-- The uncached branch of Simulator::create_distance_map (simulator.cpp
lines 129-162), computing the map on demand from the state's wall layer. -/
def create_distance_map_direct (wall : Grid) (target : Pos) : Grid :=
  let dist0 : Grid :=
    (List.range 121).map (fun i => if wall.getD i 0 ≠ 0 then -1 else 0)
  direct_bfs BFS_FUEL [target] (writeG dist0 target 1)

/-- Simulator::create_distance_map (simulator.cpp lines 123-163): serve from
the global cache when it is enabled and initialised, else compute directly. -/
def create_distance_map (cache_enabled cache_initialized : Bool)
    (cache : List Grid) (wall : Grid) (target : Pos) : Grid :=
  if cache_enabled ∧ cache_initialized then cache_get cache target.x target.y
  else create_distance_map_direct wall target

/-- Token::is_direction (constants.hpp): tokens 0..3. -/
def is_direction (t : Int) : Prop := 0 ≤ t ∧ t ≤ 3

instance (t : Int) : Decidable (is_direction t) := by
  unfold is_direction; infer_instance

/-- Token::is_num (constants.hpp): loop-count tokens 100..109. -/
def is_num (t : Int) : Prop := 100 ≤ t ∧ t ≤ 109

instance (t : Int) : Decidable (is_num t) := by
  unfold is_num; infer_instance

/-- Token::is_if_num (constants.hpp): conditional-count tokens 101..107. -/
def is_if_num (t : Int) : Prop := 101 ≤ t ∧ t ≤ 107

instance (t : Int) : Decidable (is_if_num t) := by
  unfold is_if_num; infer_instance

/-- Token::get_num_value (constants.hpp): 100 means 10, 10x means x. -/
def get_num_value (t : Int) : Int := if t = 100 then 10 else t - 100

/-- Token::is_func_lib (constants.hpp): function-library ids 113..998. -/
def is_func_lib (t : Int) : Prop := 113 ≤ t ∧ t ≤ 998

instance (t : Int) : Decidable (is_func_lib t) := by
  unfold is_func_lib; infer_instance

/-- Clamp a coordinate into [0, 10] (the std::max/std::min pair in
Simulator::move_pos). -/
def clamp01 (v : Int) : Int := max 0 (min 10 v)

/-- Simulator::move_pos (simulator.cpp lines 112-118): move, then clamp both
coordinates to the board. -/
def move_pos (p : Pos) (d : Int) : Pos :=
  ⟨clamp01 (p.move d).x, clamp01 (p.move d).y⟩

/-- Simulator::movable (simulator.cpp lines 106-110): the target cell is
in-bounds and not a wall. -/
def movable (wall : Grid) (p : Pos) (d : Int) : Prop :=
  (p.move d).is_valid ∧ readG wall (p.move d) = 0

instance (wall : Grid) (p : Pos) (d : Int) : Decidable (movable wall p d) := by
  unfold movable; infer_instance

/-- State threaded through process_commands: the virtual mouse position, the
emitted action list, the wall-collision index set (indices are strictly
increasing, so a plain list is an exact model of the std::set) and the
running action index. -/
structure InterpSt where
  mouse : Pos
  actions : List Int
  wall_cols : List Nat
  action_idx : Nat
deriving DecidableEq

/-- The state-machine registers of process_commands: need_next, pc, n_iter
(simulator.cpp lines 237-239). -/
structure Machine where
  need_next : Int
  pc : Int
  n_iter : Int
deriving DecidableEq

/-- One direction move in the NORMAL state of process_commands (simulator.cpp
lines 261-270): a passable move advances the mouse, a blocked one records the
action index as a wall collision; either way the action is appended. -/
def single_move (wall : Grid) (st : InterpSt) (cmd : Int) : InterpSt :=
  if movable wall st.mouse cmd then
    { st with mouse := move_pos st.mouse cmd,
              actions := st.actions ++ [cmd],
              action_idx := st.action_idx + 1 }
  else
    { st with wall_cols := st.wall_cols ++ [st.action_idx],
              actions := st.actions ++ [cmd],
              action_idx := st.action_idx + 1 }

/-- The LOOP execution of process_commands (simulator.cpp lines 295-305):
n_iter independent single moves. -/
def loop_moves (wall : Grid) (cmd : Int) : Nat → InterpSt → InterpSt
  | 0, st => st
  | n + 1, st => loop_moves wall cmd n (single_move wall st cmd)

/-- Termination measure for the conditional-run loop: the number of board
cells remaining ahead of the mouse in the run direction. -/
def if_measure (d : Int) (p : Pos) : Nat :=
  if d = 0 then (p.x + 1).toNat
  else if d = 1 then (11 - p.x).toNat
  else if d = 2 then (p.y + 1).toNat
  else (11 - p.y).toNat

/-- The IF (conditional-run) execution of process_commands (simulator.cpp
lines 308-343): while the junction budget is positive, attempt the direction;
a passable move is emitted as an action (decrementing the budget when the new
cell is a junction), a blocked attempt ends the run with no action and no
wall-collision entry.  The structural Nat argument is seeded with
if_measure d mouse at the call site: every iteration moves one cell towards
the board edge in direction d, so the loop iterates at most that many times
and the 0 case can only be reached with the guard already false. -/
def if_run (wall junc : Grid) (d : Int) : Nat → Int → InterpSt → InterpSt
  | 0, _, st => st
  | n + 1, remaining, st =>
    if remaining > 0 then
      if movable wall st.mouse d then
        let p' := move_pos st.mouse d
        let st' : InterpSt :=
          { st with mouse := p', actions := st.actions ++ [d],
                    action_idx := st.action_idx + 1 }
        let rem' := if readG junc p' ≠ 0 then remaining - 1 else remaining
        if_run wall junc d n rem' st'
      else st
    else st

/-- The position reached after k successful moves in direction d (used to
state the conditional-run characterisation). -/
def iter_move (d : Int) : Nat → Pos → Pos
  | 0, p => p
  | k + 1, p => iter_move d k (move_pos p d)

/-- The number of junction cells among the first k cells stepped onto when
walking from p in direction d. -/
def junc_count (junc : Grid) (d : Int) (p : Pos) : Nat → Nat
  | 0 => 0
  | k + 1 =>
    (if readG junc (move_pos p d) ≠ 0 then 1 else 0) +
      junc_count junc d (move_pos p d) k

/-- The body of Simulator::process_commands (simulator.cpp lines 228-345):
the for-loop over the command list with the need_next / pc / n_iter state
machine.  A function-call token with a non-empty body defers to the supplied
call handler, which models the recursive self-call. -/
def pc_go (wall junc : Grid) (f1 f2 : List Int)
    (callf : List Int → InterpSt → Option InterpSt) :
    List Int → Machine → InterpSt → Option InterpSt
  | [], _, st => some st
  | cmd :: rest, mv, st =>
    if cmd = 112 then some st
    else if cmd = 999 then pc_go wall junc f1 f2 callf rest mv st
    else if cmd = 10 ∧ f1 ≠ [] then
      match callf f1 st with
      | none => none
      | some st' => pc_go wall junc f1 f2 callf rest mv st'
    else if cmd = 11 ∧ f2 ≠ [] then
      match callf f2 st with
      | none => none
      | some st' => pc_go wall junc f1 f2 callf rest mv st'
    else if mv.need_next = 0 then
      if is_direction cmd then
        pc_go wall junc f1 f2 callf rest mv (single_move wall st cmd)
      else if cmd = 110 then
        pc_go wall junc f1 f2 callf rest { mv with need_next := 110 } st
      else if cmd = 5 then
        pc_go wall junc f1 f2 callf rest { mv with need_next := 5 } st
      else
        pc_go wall junc f1 f2 callf rest mv st
    else if mv.need_next = 110 then
      if is_num cmd then
        pc_go wall junc f1 f2 callf rest (Machine.mk cmd 110 (get_num_value cmd)) st
      else
        pc_go wall junc f1 f2 callf rest mv st
    else if mv.need_next = 5 then
      if is_if_num cmd then
        pc_go wall junc f1 f2 callf rest (Machine.mk cmd 5 (get_num_value cmd)) st
      else
        pc_go wall junc f1 f2 callf rest (Machine.mk cmd 5 mv.n_iter) st
    else if mv.pc = 110 ∧ is_direction cmd then
      pc_go wall junc f1 f2 callf rest (Machine.mk 0 0 mv.n_iter)
        (loop_moves wall cmd mv.n_iter.toNat st)
    else if mv.pc = 5 ∧ is_if_num mv.need_next ∧ is_direction cmd then
      pc_go wall junc f1 f2 callf rest (Machine.mk 0 0 mv.n_iter)
        (if_run wall junc cmd (if_measure cmd st.mouse) mv.n_iter st)
    else
      pc_go wall junc f1 f2 callf rest mv st

/-- The recursive self-call of process_commands through the function-call
tokens, metered by an explicit call-depth fuel: a nested invocation starts a
fresh machine on the body and hands one unit less fuel to calls made from
inside it; exhausted fuel yields none.  This is the only source of
partiality in the embedding. -/
def pc_call (wall junc : Grid) (f1 f2 : List Int) :
    Nat → List Int → InterpSt → Option InterpSt
  | 0, _, _ => none
  | fuel + 1, body, st =>
    pc_go wall junc f1 f2 (pc_call wall junc f1 f2 fuel) body (Machine.mk 0 0 0) st

/-- Simulator::process_commands (simulator.cpp lines 228-345): the loop body
with the call handler at the given depth budget. -/
def process_commands (wall junc : Grid) (f1 f2 : List Int) (fuel : Nat)
    (cmds : List Int) (mv : Machine) (st : InterpSt) : Option InterpSt :=
  pc_go wall junc f1 f2 (pc_call wall junc f1 f2 fuel) cmds mv st

/-- Simulator::get_mouse_actions (simulator.cpp lines 212-226): run
process_commands on a temporary copy of the state, starting from a fresh
machine and empty outputs. -/
def get_mouse_actions (wall junc : Grid) (cmds f1 f2 : List Int)
    (mouse : Pos) (fuel : Nat) : Option InterpSt :=
  process_commands wall junc f1 f2 fuel cmds ⟨0, 0, 0⟩ ⟨mouse, [], [], 0⟩

/-- The result of Simulator::parse_program (struct ParsedProgram). -/
structure ParsedProgram where
  main_cmd : List Int
  func1 : List Int
  func2 : List Int
deriving DecidableEq

/-- The parsing loop of Simulator::parse_program (simulator.cpp lines 173-204)
with the two binding registers first_func_id and second_func_id made
explicit arguments. -/
def parse_go (getF : Int → List Int) :
    List Int → Int → Int → ParsedProgram → ParsedProgram
  | [], _, _, acc => acc
  | t :: rest, fid, sid, acc =>
    if t = 112 then acc
    else if t = 999 then parse_go getF rest fid sid acc
    else if is_func_lib t then
      if fid < 0 then
        parse_go getF rest t sid
          { acc with func1 := getF t, main_cmd := acc.main_cmd ++ [10] }
      else if t = fid then
        parse_go getF rest fid sid { acc with main_cmd := acc.main_cmd ++ [10] }
      else if sid < 0 then
        parse_go getF rest fid t
          { acc with func2 := getF t, main_cmd := acc.main_cmd ++ [11] }
      else if t = sid then
        parse_go getF rest fid sid { acc with main_cmd := acc.main_cmd ++ [11] }
      else
        parse_go getF rest fid sid acc
    else
      parse_go getF rest fid sid { acc with main_cmd := acc.main_cmd ++ [t] }

/-- Simulator::parse_program (simulator.cpp lines 168-207). -/
def parse_program (getF : Int → List Int) (program : List Int) : ParsedProgram :=
  parse_go getF program (-1) (-1) ⟨[], [], []⟩

/-- Declarative reading of the parsing pass, following the spec's words: the
region scanned is the program up to the end sentinel. -/
def spec_scan (program : List Int) : List Int :=
  program.takeWhile (fun t => decide (t ≠ 112))

/-- Boolean test for a function-library token. -/
def fb_lib (t : Int) : Bool := decide (is_func_lib t)

/-- Boolean test for a function-library token different from a. -/
def fb_lib_ne (a : Int) (t : Int) : Bool :=
  decide (is_func_lib t) && decide (t ≠ a)

/-- Declarative reading: the first distinct function-library id encountered
before the end sentinel. -/
def spec_first_id (program : List Int) : Option Int :=
  (spec_scan program).find? fb_lib

/-- Declarative reading: the next function-library id different from the
first. -/
def spec_second_id (program : List Int) : Option Int :=
  match spec_first_id program with
  | none => none
  | some a => (spec_scan program).find? (fb_lib_ne a)

/-- Declarative reading of the per-token rewriting: filler dropped, the two
bound ids rewritten to their call tokens, further distinct ids dropped, all
other tokens passed through verbatim. -/
def spec_token_map (a b : Option Int) (t : Int) : Option Int :=
  if t = 999 then none
  else if is_func_lib t then
    if a = some t then some 10
    else if b = some t then some 11
    else none
  else some t

/-- Declarative reading of the whole parsing pass, built from the spec's
words, to be compared with parse_program. -/
def parse_spec (getF : Int → List Int) (program : List Int) : ParsedProgram :=
  ⟨(spec_scan program).filterMap
      (spec_token_map (spec_first_id program) (spec_second_id program)),
   (spec_first_id program).elim [] getF,
   (spec_second_id program).elim [] getF⟩

/-- A mobile entity (struct Entity, game_state.hpp): cats and big-cheese
items. -/
structure Entity where
  pos : Pos
  last_pos : Pos
  direction : Int
  active : Bool
deriving DecidableEq

/-- The default-constructed Entity (game_state.hpp line 55). -/
def entity_default : Entity := ⟨⟨0, 0⟩, ⟨0, 0⟩, 0, true⟩

/-- struct GameState (game_state.hpp).  The fixed-size entity arrays
(2 cats, 2 movbc, 2 crzbc) are unrolled into named fields. -/
structure GameState where
  wall : Grid
  sc : Grid
  junc : Grid
  deadend : Grid
  mouse : Pos
  mouse_last : Pos
  cat0 : Entity
  cat1 : Entity
  mb0 : Entity
  mb1 : Entity
  cb0 : Entity
  cb1 : Entity
  score : Int
  life : Int
  step : Int
  step_limit : Int
  run : Int
  func_chance : Int
  red_zone : Int
  win_sign : Bool
  lose_sign : Bool
  catched : Bool
deriving DecidableEq

/-- GameState::reset (game_state.hpp lines 94-132). -/
def game_state_reset : GameState :=
  { wall := List.replicate 121 0, sc := List.replicate 121 0,
    junc := List.replicate 121 0, deadend := List.replicate 121 0,
    mouse := ⟨10, 10⟩, mouse_last := ⟨10, 10⟩,
    cat0 := entity_default, cat1 := entity_default,
    mb0 := entity_default, mb1 := entity_default,
    cb0 := entity_default, cb1 := entity_default,
    score := 0, life := 3, step := 0, step_limit := 200, run := 0,
    func_chance := 4, red_zone := 5,
    win_sign := false, lose_sign := false, catched := false }

/-- GameState::count_remaining_cheese (game_state.hpp lines 247-255): the sum
of the small-cheese layer. -/
def count_remaining_cheese (g : Grid) : Int := g.foldl (· + ·) 0

/-- Simulator::check_crossing (simulator.cpp lines 510-513). -/
def check_crossing (p1 p1_last p2 p2_last : Pos) : Prop :=
  p1 = p2_last ∧ p2 = p1_last

instance (p1 p1l p2 p2l : Pos) : Decidable (check_crossing p1 p1l p2 p2l) := by
  unfold check_crossing; infer_instance

/-- The best-direction scan of the red-zone flee rule in
Simulator::move_single_cat (simulator.cpp lines 369-382), folding over the
four directions with the running best direction and maximum distance. -/
def flee_scan (wall dmap : Grid) (p : Pos) :
    List Int → Int → Int → Int × Int
  | [], best_dir, max_dist => (best_dir, max_dist)
  | d :: ds, best_dir, max_dist =>
    let next := p.move d
    if next.is_valid ∧ readG wall next = 0 then
      let nd := readG dmap next
      if nd > max_dist then flee_scan wall dmap p ds d nd
      else flee_scan wall dmap p ds best_dir max_dist
    else flee_scan wall dmap p ds best_dir max_dist

/-- The passable-neighbour collection of the junction rule in
Simulator::move_single_cat (simulator.cpp lines 393-402): directions other
than the back direction whose target cell is valid and not a wall, in scan
order. -/
def junc_valid_dirs (wall : Grid) (p : Pos) (back : Int) : List Int :=
  dirs4.filter (fun d =>
    decide (d ≠ back) && decide ((p.move d).is_valid) &&
    decide (readG wall (p.move d) = 0))

/-- The bounded random probe at the end of Simulator::move_single_cat
(simulator.cpp lines 421-430): up to the given number of tries, draw a
direction and take the first passable one; on exhaustion position and
direction are unchanged. -/
def cat_probe (wall : Grid) (rng : Nat → Nat) :
    Nat → Nat → Pos → Int → Pos × Int × Nat
  | 0, k, p, d => (p, d, k)
  | t + 1, k, p, d =>
    let nd : Int := ((rng k % 4 : Nat) : Int)
    let next := p.move nd
    if next.is_valid ∧ readG wall next = 0 then (next, nd, k + 1)
    else cat_probe wall rng t (k + 1) p d

/-- Simulator::move_single_cat (simulator.cpp lines 357-431): the per-tick
cat AI cascade (dead-end halt, red-zone flee, junction turn, continue
straight, bounded random probe).  Returns the updated entity and the
advanced rng index. -/
def move_single_cat (wall junc deadend : Grid) (red_zone : Int) (dmap : Grid)
    (rng : Nat → Nat) (k : Nat) (cat : Entity) : Entity × Nat :=
  let cat := { cat with last_pos := cat.pos }
  if readG deadend cat.pos ≠ 0 then (cat, k)
  else
    let my_dist := readG dmap cat.pos
    let best_dir :=
      if my_dist > 0 ∧ my_dist ≤ red_zone then
        (flee_scan wall dmap cat.pos dirs4 (-1) my_dist).1
      else -1
    if best_dir ≥ 0 then
      ({ cat with pos := cat.pos.move best_dir, direction := best_dir }, k)
    else
      let cont : Entity × Nat :=
        let next := cat.pos.move cat.direction
        if next.is_valid ∧ readG wall next = 0 then
          ({ cat with pos := next }, k)
        else
          let r := cat_probe wall rng 100 k cat.pos cat.direction
          ({ cat with pos := r.1, direction := r.2.1 }, r.2.2)
      if readG junc cat.pos ≠ 0 then
        let vd := junc_valid_dirs wall cat.pos (OPPOSITE cat.direction)
        if vd ≠ [] then
          let chosen := vd.getD (rng k % vd.length) 0
          ({ cat with pos := cat.pos.move chosen, direction := chosen }, k + 1)
        else cont
      else cont

/-- The junction-turn rejection loop of the pre-computation pass
(simulator.cpp lines 543-555): up to the given number of tries, draw a
direction, skip the reverse direction, take the first passable one. -/
def junc_probe (wall : Grid) (rng : Nat → Nat) (p : Pos) (back : Int) :
    Nat → Nat → Option (Pos × Int) × Nat
  | 0, k => (none, k)
  | t + 1, k =>
    let nd : Int := ((rng k % 4 : Nat) : Int)
    if nd = back then junc_probe wall rng p back t (k + 1)
    else
      let next := p.move nd
      if next.is_valid ∧ readG wall next = 0 then (some (next, nd), k + 1)
      else junc_probe wall rng p back t (k + 1)

/-- The blocked-case random probe of the pre-computation pass
(simulator.cpp lines 567-579). -/
def blocked_probe (wall : Grid) (rng : Nat → Nat) (p : Pos) :
    Nat → Nat → Option (Pos × Int) × Nat
  | 0, k => (none, k)
  | t + 1, k =>
    let nd : Int := ((rng k % 4 : Nat) : Int)
    let next := p.move nd
    if next.is_valid ∧ readG wall next = 0 then (some (next, nd), k + 1)
    else blocked_probe wall rng p t (k + 1)

/-- The default action pushed on probe exhaustion (simulator.cpp lines 557
and 581): the current direction when it is in range, else 0. -/
def default_action (d : Int) : Int := if 0 ≤ d ∧ d < 4 then d else 0

/-- One virtual step of one cat inside
Simulator::pre_calculate_cat_actions (simulator.cpp lines 536-583):
junction turn by rejection sampling, else continue straight, else random
probe.  Returns the new virtual position and direction, the emitted action
and the advanced rng index. -/
def cat_virtual_step (wall junc : Grid) (rng : Nat → Nat)
    (p : Pos) (d : Int) (k : Nat) : Pos × Int × Int × Nat :=
  if readG junc p ≠ 0 then
    match junc_probe wall rng p (OPPOSITE d) 100 k with
    | (some (np, nd), k') => (np, nd, nd, k')
    | (none, k') => (p, d, default_action d, k')
  else if movable wall p d then
    (move_pos p d, d, d, k)
  else
    match blocked_probe wall rng p 100 k with
    | (some (np, nd), k') => (np, nd, nd, k')
    | (none, k') => (p, d, default_action d, k')

/-- The virtual planning state of pre_calculate_cat_actions: the two cats'
virtual positions and directions, their accumulated action lists, and the
rng index. -/
structure CatPre where
  p0 : Pos
  p1 : Pos
  d0 : Int
  d1 : Int
  a0 : List Int
  a1 : List Int
  k : Nat

/-- The step loop of Simulator::pre_calculate_cat_actions (simulator.cpp
lines 535-585): per step, cat 0 then cat 1 take one virtual step each. -/
def pre_calc_cats_go (wall junc : Grid) (rng : Nat → Nat) :
    Nat → CatPre → CatPre
  | 0, s => s
  | n + 1, s =>
    let r0 := cat_virtual_step wall junc rng s.p0 s.d0 s.k
    let r1 := cat_virtual_step wall junc rng s.p1 s.d1 r0.2.2.2
    pre_calc_cats_go wall junc rng n
      ⟨r0.1, r1.1, r0.2.1, r1.2.1,
       s.a0 ++ [r0.2.2.1], s.a1 ++ [r1.2.2.1], r1.2.2.2⟩

/-- Simulator::pre_calculate_cat_actions (simulator.cpp lines 518-588):
plan n_steps virtual moves per cat from private copies of the cat
positions and directions. -/
def pre_calculate_cat_actions (wall junc : Grid) (rng : Nat → Nat) (k : Nat)
    (n_steps : Nat) (c0 c1 : Entity) : (List Int × List Int) × Nat :=
  let s := pre_calc_cats_go wall junc rng n_steps
    ⟨c0.pos, c1.pos, c0.direction, c1.direction, [], [], k⟩
  ((s.a0, s.a1), s.k)

/-- One virtual step of one roaming big cheese inside
Simulator::pre_calculate_crzbc_actions (simulator.cpp lines 615-658); the
cascade is the same shape as the cat's virtual step. -/
def crz_virtual_step (wall junc : Grid) (rng : Nat → Nat)
    (p : Pos) (d : Int) (k : Nat) : Pos × Int × Int × Nat :=
  if readG junc p ≠ 0 then
    match junc_probe wall rng p (OPPOSITE d) 100 k with
    | (some (np, nd), k') => (np, nd, nd, k')
    | (none, k') => (p, d, default_action d, k')
  else if movable wall p d then
    (move_pos p d, d, d, k)
  else
    match blocked_probe wall rng p 100 k with
    | (some (np, nd), k') => (np, nd, nd, k')
    | (none, k') => (p, d, default_action d, k')

/-- The virtual planning state of pre_calculate_crzbc_actions. -/
structure CrzPre where
  p0 : Pos
  p1 : Pos
  d0 : Int
  d1 : Int
  a0 : List Int
  a1 : List Int
  k : Nat

/-- The step loop of Simulator::pre_calculate_crzbc_actions (simulator.cpp
lines 606-660): inactive items and items at an invalid virtual position are
skipped entirely (no action pushed, no rng consumed). -/
def pre_calc_crz_go (wall junc : Grid) (rng : Nat → Nat)
    (act0 act1 : Bool) : Nat → CrzPre → CrzPre
  | 0, s => s
  | n + 1, s =>
    let s1 : CrzPre :=
      if act0 = true ∧ s.p0.is_valid then
        let r := crz_virtual_step wall junc rng s.p0 s.d0 s.k
        { s with p0 := r.1, d0 := r.2.1, a0 := s.a0 ++ [r.2.2.1], k := r.2.2.2 }
      else s
    let s2 : CrzPre :=
      if act1 = true ∧ s1.p1.is_valid then
        let r := crz_virtual_step wall junc rng s1.p1 s1.d1 s1.k
        { s1 with p1 := r.1, d1 := r.2.1, a1 := s1.a1 ++ [r.2.2.1], k := r.2.2.2 }
      else s1
    pre_calc_crz_go wall junc rng act0 act1 n s2

/-- Simulator::pre_calculate_crzbc_actions (simulator.cpp lines 593-663). -/
def pre_calculate_crzbc_actions (wall junc : Grid) (rng : Nat → Nat) (k : Nat)
    (n_moves : Nat) (c0 c1 : Entity) : (List Int × List Int) × Nat :=
  let s := pre_calc_crz_go wall junc rng c0.active c1.active n_moves
    ⟨c0.pos, c1.pos, c0.direction, c1.direction, [], [], k⟩
  ((s.a0, s.a1), s.k)

/-- The raw token count of a program up to and including the first END token
(simulator.cpp lines 686-690, matching Python len(command)). -/
def command_length : List Int → Nat
  | [] => 0
  | t :: rest => if t = 112 then 1 else 1 + command_length rest

/-- The running virtual state of the simulation loop: the mutated private
copy of the game state plus the virtual score and life counters
(simulator.cpp lines 670-672). -/
structure TickSt where
  gs : GameState
  score : Int
  life : Int
deriving DecidableEq

/-- One iteration of the simulation loop of Simulator::simulate_program
(simulator.cpp lines 697-819), steps 1-11 in source order.  Returns the
updated state and whether a break condition fired. -/
def tick_body (wall_cols : List Nat) (catA0 catA1 crzA0 crzA1 : List Int)
    (cl : Nat) (itr : Nat) (action : Int) (t : TickSt) : TickSt × Bool :=
  -- 1. wall collision penalty
  let score := if itr ∈ wall_cols then t.score + (-10) else t.score
  -- 2. mouse moves
  let gs := { t.gs with mouse_last := t.gs.mouse }
  let gs :=
    if movable gs.wall gs.mouse action then
      { gs with mouse := move_pos gs.mouse action, step := gs.step + 1 }
    else gs
  -- 3. cat 1 moves every step, blocked by cat 0's cell
  let gs :=
    if itr < catA1.length then
      let a := catA1.getD itr 0
      if movable gs.wall gs.cat1.pos a then
        let new_pos := move_pos gs.cat1.pos a
        if new_pos ≠ gs.cat0.pos then
          { gs with cat1 := { gs.cat1 with last_pos := gs.cat1.pos, pos := new_pos } }
        else gs
      else gs
    else gs
  -- 4. cat 0 moves only for command_length steps, blocked by cat 1's cell
  let gs :=
    if itr < cl ∧ itr < catA0.length then
      let a := catA0.getD itr 0
      if movable gs.wall gs.cat0.pos a then
        let new_pos := move_pos gs.cat0.pos a
        if new_pos ≠ gs.cat1.pos then
          { gs with cat0 := { gs.cat0 with last_pos := gs.cat0.pos, pos := new_pos } }
        else gs
      else gs
    else gs
  -- 5. roaming big cheese moves, skipped on any collision with a cat or the
  --    other active roaming item
  let gs :=
    if gs.cb0.active = true ∧ itr < crzA0.length then
      let a := crzA0.getD itr 0
      if movable gs.wall gs.cb0.pos a then
        let new_pos := move_pos gs.cb0.pos a
        let collision := new_pos = gs.cat0.pos ∨ new_pos = gs.cat1.pos ∨
          (gs.cb1.active = true ∧ new_pos = gs.cb1.pos)
        if ¬ collision then { gs with cb0 := { gs.cb0 with pos := new_pos } }
        else gs
      else gs
    else gs
  let gs :=
    if gs.cb1.active = true ∧ itr < crzA1.length then
      let a := crzA1.getD itr 0
      if movable gs.wall gs.cb1.pos a then
        let new_pos := move_pos gs.cb1.pos a
        let collision := new_pos = gs.cat0.pos ∨ new_pos = gs.cat1.pos ∨
          (gs.cb0.active = true ∧ new_pos = gs.cb0.pos)
        if ¬ collision then { gs with cb1 := { gs.cb1 with pos := new_pos } }
        else gs
      else gs
    else gs
  -- 6. cat collision check after all movement, both cats independently
  let hit0 := gs.cat0.active = true ∧ (gs.mouse = gs.cat0.pos ∨
    check_crossing gs.mouse gs.mouse_last gs.cat0.pos gs.cat0.last_pos)
  let hit1 := gs.cat1.active = true ∧ (gs.mouse = gs.cat1.pos ∨
    check_crossing gs.mouse gs.mouse_last gs.cat1.pos gs.cat1.last_pos)
  let score := if hit0 then score + (-500) else score
  let life := if hit0 then t.life - 1 else t.life
  let score := if hit1 then score + (-500) else score
  let life := if hit1 then life - 1 else life
  let catched := (hit0 ∨ hit1 : Bool)
  -- 7. stationary big cheese collection
  let got0 := gs.mb0.active = true ∧ gs.mouse = gs.mb0.pos
  let gs := if got0 then { gs with mb0 := { gs.mb0 with active := false } } else gs
  let score := if got0 then score + 500 else score
  let got1 := gs.mb1.active = true ∧ gs.mouse = gs.mb1.pos
  let gs := if got1 then { gs with mb1 := { gs.mb1 with active := false } } else gs
  let score := if got1 then score + 500 else score
  -- 8. roaming big cheese collection
  let gotc0 := gs.cb0.active = true ∧ gs.mouse = gs.cb0.pos
  let gs := if gotc0 then { gs with cb0 := { gs.cb0 with active := false } } else gs
  let score := if gotc0 then score + 500 else score
  let gotc1 := gs.cb1.active = true ∧ gs.mouse = gs.cb1.pos
  let gs := if gotc1 then { gs with cb1 := { gs.cb1 with active := false } } else gs
  let score := if gotc1 then score + 500 else score
  -- 9. small cheese collection
  let gotsc := readG gs.sc gs.mouse ≠ 0
  let gs := if gotsc then { gs with sc := writeG gs.sc gs.mouse 0 } else gs
  let score := if gotsc then score + 10 else score
  -- 10. break checks in source order: life, win, step limit; 11. catched
  if life ≤ 0 then (⟨gs, score, life⟩, true)
  else if count_remaining_cheese gs.sc = 0 then
    (⟨{ gs with win_sign := true }, score + gs.run * 10 + gs.step, life⟩, true)
  else if gs.step ≥ gs.step_limit then (⟨gs, score, life⟩, true)
  else if catched then (⟨gs, score, life⟩, true)
  else (⟨gs, score, life⟩, false)

/-- The simulation loop of Simulator::simulate_program (simulator.cpp lines
697-819), iterating tick_body over the action list until a break fires. -/
def sim_loop (wall_cols : List Nat) (catA0 catA1 crzA0 crzA1 : List Int)
    (cl : Nat) : List Int → Nat → TickSt → TickSt
  | [], _, t => t
  | a :: rest, itr, t =>
    let r := tick_body wall_cols catA0 catA1 crzA0 crzA1 cl itr a t
    if r.2 then r.1
    else sim_loop wall_cols catA0 catA1 crzA0 crzA1 cl rest (itr + 1) r.1

/-- The simulator object: the persisted game state, the external function
library, and the random stream with its running index (the state_, func_lib_
and rng_ members of class Simulator). -/
structure Sim where
  state : GameState
  getF : Int → List Int
  rng : Nat → Nat
  rngIdx : Nat

/-- Simulator::simulate_program (simulator.cpp lines 668-829): parse, expand
to actions on a temporary copy, pre-calculate the entity action sequences,
run the tick loop on a fresh private copy of the state, apply the post-loop
victory re-check, and return the virtual score.  The member state is not
written; only the rng index advances.  none only when the interpreter fuel
is exhausted by nested function calls. -/
def simulate_program (fuel : Nat) (program : List Int) (sim : Sim) :
    Option (Int × Sim) :=
  let st0 := sim.state
  let parsed := parse_program sim.getF program
  match get_mouse_actions st0.wall st0.junc parsed.main_cmd parsed.func1
      parsed.func2 st0.mouse fuel with
  | none => none
  | some ar =>
    let cl := command_length program
    let catsR := pre_calculate_cat_actions st0.wall st0.junc sim.rng sim.rngIdx
      ar.actions.length st0.cat0 st0.cat1
    let crzR := pre_calculate_crzbc_actions st0.wall st0.junc sim.rng catsR.2
      cl st0.cb0 st0.cb1
    let fin := sim_loop ar.wall_cols catsR.1.1 catsR.1.2 crzR.1.1 crzR.1.2 cl
      ar.actions 0 ⟨st0, st0.score, st0.life⟩
    -- post-loop victory re-check (simulator.cpp lines 821-826); the source
    -- runs it whether or not the loop broke early
    let final_score :=
      if ¬ fin.gs.win_sign = true ∧ count_remaining_cheese fin.gs.sc = 0 then
        fin.score + fin.gs.run * 10 + fin.gs.step
      else fin.score
    some (final_score, { sim with rngIdx := crzR.2 })

/-- Simulator::simulate_program_and_apply (simulator.cpp lines 831-836): it
calls simulate_program and returns its score; the commit step is absent. -/
def simulate_program_and_apply (fuel : Nat) (program : List Int) (sim : Sim) :
    Option (Int × Sim) :=
  simulate_program fuel program sim

/-- The Python snapshot dictionary consumed by dict_to_state (bindings.cpp
lines 14-137).  Required keys are plain fields; keys probed with
dict.contains are Option fields. -/
structure Snapshot where
  mouse : Int × Int
  mouse_last_pos : Option (Int × Int)
  cat : List (Int × Int)
  cat_last_pos : Option (List (Int × Int))
  cat_direction : Option (List Int)
  sc : List (List Int)
  wall : List (List Int)
  junc : List (List Int)
  deadend : List (List Int)
  movbc : List (Int × Int)
  crzbc : List (Int × Int)
  crzbc_direction : Option (List Int)
  score : Int
  life : Int
  step : Int
  step_limit : Option Int
  run : Option Int
  func_chance : Option Int
  red_zone : Option Int
  win_sign : Option Bool
  lose_sign : Option Bool
  catched : Option Bool

/-- Flatten a row-list grid to the 121-entry row-major representation (the
double copy loops of bindings.cpp). -/
def flat11 (m : List (List Int)) : Grid :=
  (List.range 121).map (fun i => (m.getD (i / 11) []).getD (i % 11) 0)

/-- One iteration of the entity-loading loops of dict_to_state (bindings.cpp
lines 31-38, 89-105): when entry i exists, position and last position are
taken from it and active is set to true; otherwise the default-constructed
entity is kept. -/
def ent_from (l : List (Int × Int)) (i : Nat) (e : Entity) : Entity :=
  if i < l.length then
    let q := l.getD i (0, 0)
    { e with pos := ⟨q.1, q.2⟩, last_pos := ⟨q.1, q.2⟩, active := true }
  else e

/-- Overlay an optional last-position entry (bindings.cpp lines 41-47). -/
def ent_last_from (o : Option (List (Int × Int))) (i : Nat) (e : Entity) :
    Entity :=
  match o with
  | none => e
  | some l =>
    if i < l.length then
      let q := l.getD i (0, 0)
      { e with last_pos := ⟨q.1, q.2⟩ }
    else e

/-- Overlay an optional direction entry (bindings.cpp lines 50-55 and
108-113). -/
def ent_dir_from (o : Option (List Int)) (i : Nat) (e : Entity) : Entity :=
  match o with
  | none => e
  | some l => if i < l.length then { e with direction := l.getD i 0 } else e

/-- dict_to_state (bindings.cpp lines 14-137): build a GameState from a
snapshot dictionary, starting from the default-constructed GameState. -/
def dict_to_state (s : Snapshot) : GameState :=
  let g0 := game_state_reset
  let mouse : Pos := ⟨s.mouse.1, s.mouse.2⟩
  let mouse_last : Pos :=
    match s.mouse_last_pos with
    | some q => ⟨q.1, q.2⟩
    | none => mouse
  let cat0 := ent_dir_from s.cat_direction 0
    (ent_last_from s.cat_last_pos 0 (ent_from s.cat 0 g0.cat0))
  let cat1 := ent_dir_from s.cat_direction 1
    (ent_last_from s.cat_last_pos 1 (ent_from s.cat 1 g0.cat1))
  let cb0 := ent_dir_from s.crzbc_direction 0 (ent_from s.crzbc 0 g0.cb0)
  let cb1 := ent_dir_from s.crzbc_direction 1 (ent_from s.crzbc 1 g0.cb1)
  { g0 with
    mouse := mouse, mouse_last := mouse_last,
    cat0 := cat0, cat1 := cat1,
    sc := flat11 s.sc, wall := flat11 s.wall,
    junc := flat11 s.junc, deadend := flat11 s.deadend,
    mb0 := ent_from s.movbc 0 g0.mb0, mb1 := ent_from s.movbc 1 g0.mb1,
    cb0 := cb0, cb1 := cb1,
    score := s.score, life := s.life, step := s.step,
    step_limit := s.step_limit.getD 200,
    run := s.run.getD 0,
    func_chance := s.func_chance.getD 4,
    red_zone := s.red_zone.getD 5,
    win_sign := s.win_sign.getD false,
    lose_sign := s.lose_sign.getD false,
    catched := s.catched.getD false }

/-- Unflatten the 121-entry grid back to row lists (the export loops of
state_to_dict). -/
def unflat11 (g : Grid) : List (List Int) :=
  (List.range 11).map (fun i => (List.range 11).map (fun j => g.getD (i * 11 + j) 0))

/-- state_to_dict (bindings.cpp lines 142-213): export a GameState as a
snapshot dictionary; every optional key is emitted. -/
def state_to_dict (g : GameState) : Snapshot :=
  { mouse := (g.mouse.x, g.mouse.y),
    mouse_last_pos := some (g.mouse_last.x, g.mouse_last.y),
    cat := [(g.cat0.pos.x, g.cat0.pos.y), (g.cat1.pos.x, g.cat1.pos.y)],
    cat_last_pos := some [(g.cat0.last_pos.x, g.cat0.last_pos.y),
                          (g.cat1.last_pos.x, g.cat1.last_pos.y)],
    cat_direction := some [g.cat0.direction, g.cat1.direction],
    sc := unflat11 g.sc, wall := unflat11 g.wall,
    junc := unflat11 g.junc, deadend := unflat11 g.deadend,
    movbc := [(g.mb0.pos.x, g.mb0.pos.y), (g.mb1.pos.x, g.mb1.pos.y)],
    crzbc := [(g.cb0.pos.x, g.cb0.pos.y), (g.cb1.pos.x, g.cb1.pos.y)],
    crzbc_direction := some [g.cb0.direction, g.cb1.direction],
    score := g.score, life := g.life, step := g.step,
    step_limit := some g.step_limit, run := some g.run,
    func_chance := some g.func_chance, red_zone := some g.red_zone,
    win_sign := some g.win_sign, lose_sign := some g.lose_sign,
    catched := some g.catched }

/-- The level-3 wall layer WALL_DATA (game_state.hpp lines 139-151),
row-major. -/
def wall3 : Grid :=
  [0, 0, 0, 0, 1, 0, 1, 0, 0, 0, 0,
   0, 1, 1, 0, 1, 0, 1, 0, 1, 1, 0,
   0, 0, 0, 0, 0, 0, 0, 0, 0, 0, 0,
   0, 1, 0, 1, 1, 0, 1, 1, 0, 1, 0,
   0, 1, 0, 1, 1, 0, 1, 1, 0, 1, 0,
   0, 1, 0, 0, 0, 0, 0, 0, 0, 1, 0,
   0, 1, 1, 1, 0, 1, 0, 1, 1, 1, 0,
   0, 0, 0, 0, 0, 0, 0, 0, 0, 0, 0,
   1, 1, 1, 0, 1, 1, 1, 0, 1, 1, 1,
   0, 0, 0, 0, 1, 1, 1, 0, 0, 0, 0,
   0, 1, 1, 0, 0, 0, 0, 0, 1, 1, 0]

/-- The invariant maintained by the BFS: the source cell holds 1 and every
valid wall cell other than the source holds -1. -/
def bfs_inv (wall : Grid) (src : Pos) (m : Grid) : Prop :=
  readG m src = 1 ∧
  ∀ p : Pos, p.is_valid → p ≠ src → readG wall p ≠ 0 → readG m p = -1

/-- A simulator over the default-constructed state used by witnesses. -/
def simW : Sim := ⟨game_state_reset, fun _ => [], fun _ => 0, 0⟩

/-- Termination of the embedded process_commands: some call-depth fuel
suffices for the run to complete. -/
def TerminatesPC (wall junc : Grid) (f1 f2 cmds : List Int)
    (st : InterpSt) : Prop :=
  ∃ fuel, (process_commands wall junc f1 f2 fuel cmds ⟨0, 0, 0⟩ st).isSome = true

/-- A token list that contains neither of the two function-call tokens. -/
def call_free (l : List Int) : Prop := ∀ t ∈ l, t ≠ 10 ∧ t ≠ 11

/-- An all-open 11x11 grid (no walls, no junctions), used by concrete
interpreter runs. -/
def grid0 : Grid := List.replicate 121 0

/-- An almost fully walled board with just the corridor (5,4)-(5,5) open. -/
def wallC7 : Grid := writeG (writeG (List.replicate 121 1) ⟨5, 4⟩ 0) ⟨5, 5⟩ 0

/-- A state with one life, one remaining cheese at (5,5), an immobile cat
sitting on that cheese, and run counter 7. -/
def gameC7 : GameState :=
  { wall := wallC7, sc := writeG grid0 ⟨5, 5⟩ 1, junc := grid0,
    deadend := grid0,
    mouse := ⟨5, 4⟩, mouse_last := ⟨5, 4⟩,
    cat0 := ⟨⟨0, 0⟩, ⟨0, 0⟩, 0, true⟩,
    cat1 := ⟨⟨5, 5⟩, ⟨5, 5⟩, 0, true⟩,
    mb0 := ⟨⟨0, 0⟩, ⟨0, 0⟩, 0, false⟩, mb1 := ⟨⟨0, 0⟩, ⟨0, 0⟩, 0, false⟩,
    cb0 := ⟨⟨0, 0⟩, ⟨0, 0⟩, 0, false⟩, cb1 := ⟨⟨0, 0⟩, ⟨0, 0⟩, 0, false⟩,
    score := 0, life := 1, step := 0, step_limit := 200, run := 7,
    func_chance := 4, red_zone := 5,
    win_sign := false, lose_sign := false, catched := false }

/-- The simulator on that state, with the all-zero random stream (under
which both cats are provably immobile, so the run is fully deterministic). -/
def simC7 : Sim := ⟨gameC7, fun _ => [], fun _ => 0, 0⟩

/-! Helper lemmas about grid reads and writes. -/

theorem readG_writeG_ne {m : Grid} {p q : Pos} {v : Int}
    (h : gidx p ≠ gidx q) : readG (writeG m p v) q = readG m q := by
  unfold readG writeG
  simp [List.getD_eq_getElem?_getD, List.getElem?_set_ne h]

theorem readG_writeG_self {m : Grid} {p : Pos} {v : Int}
    (h : gidx p < m.length) : readG (writeG m p v) p = v := by
  unfold readG writeG
  simp [List.getD_eq_getElem?_getD, List.getElem?_set_eq_of_lt _ h]

theorem readG_congr_gidx {m : Grid} {p q : Pos} (h : gidx p = gidx q) :
    readG m p = readG m q := by
  unfold readG; rw [h]

theorem gidx_lt_of_valid {p : Pos} (h : p.is_valid) : gidx p < 121 := by
  obtain ⟨h1, h2, h3, h4⟩ := h
  unfold gidx; omega

theorem gidx_inj {p q : Pos} (hp : p.is_valid) (hq : q.is_valid)
    (h : gidx p = gidx q) : p = q := by
  obtain ⟨a1, a2, a3, a4⟩ := hp
  obtain ⟨b1, b2, b3, b4⟩ := hq
  unfold gidx at h
  cases p; cases q
  simp_all
  omega

theorem if_measure_zero_not_movable (wall : Grid) {d : Int} {p : Pos}
    (hd : is_direction d) (hm : if_measure d p = 0) : ¬ movable wall p d := by
  obtain ⟨hd0, hd3⟩ := hd
  rintro ⟨⟨a, b, c, e⟩, -⟩
  simp only [Pos.move] at a b c e
  interval_cases d <;>
    simp [if_measure, dirDX, dirDY] at hm a b c e <;> omega

/-! Single-step equations for the pc_go state machine, used throughout the
interpreter proofs. -/

section PcStep

variable {wall junc : Grid} {f1 f2 : List Int}
variable {callf : List Int → InterpSt → Option InterpSt}
variable {cmd : Int} {rest : List Int} {mv : Machine} {st : InterpSt}

theorem pc_step_end (rest : List Int) (mv : Machine) (st : InterpSt) :
    pc_go wall junc f1 f2 callf (112 :: rest) mv st = some st := by
  simp [pc_go]

theorem pc_step_empty (rest : List Int) (mv : Machine) (st : InterpSt) :
    pc_go wall junc f1 f2 callf (999 :: rest) mv st =
      pc_go wall junc f1 f2 callf rest mv st := by
  simp [pc_go]

theorem pc_step_call1 (h : f1 ≠ []) (rest : List Int) (mv : Machine)
    (st : InterpSt) :
    pc_go wall junc f1 f2 callf (10 :: rest) mv st =
      match callf f1 st with
      | none => none
      | some st' => pc_go wall junc f1 f2 callf rest mv st' := by
  simp [pc_go, h]

theorem pc_step_call2 (h : f2 ≠ []) (rest : List Int) (mv : Machine)
    (st : InterpSt) :
    pc_go wall junc f1 f2 callf (11 :: rest) mv st =
      match callf f2 st with
      | none => none
      | some st' => pc_go wall junc f1 f2 callf rest mv st' := by
  simp [pc_go, h]

theorem pc_step_dir (hd : is_direction cmd) (h0 : mv.need_next = 0) :
    pc_go wall junc f1 f2 callf (cmd :: rest) mv st =
      pc_go wall junc f1 f2 callf rest mv (single_move wall st cmd) := by
  obtain ⟨hl, hr⟩ := hd
  have h1 : ¬ cmd = 112 := by omega
  have h2 : ¬ cmd = 999 := by omega
  have h3 : ¬ (cmd = 10 ∧ f1 ≠ []) := by rintro ⟨rfl, -⟩; omega
  have h4 : ¬ (cmd = 11 ∧ f2 ≠ []) := by rintro ⟨rfl, -⟩; omega
  have h5 : is_direction cmd := ⟨hl, hr⟩
  simp [pc_go, h1, h2, h3, h4, h0, h5]

theorem pc_step_loop_tok (h0 : mv.need_next = 0) :
    pc_go wall junc f1 f2 callf (110 :: rest) mv st =
      pc_go wall junc f1 f2 callf rest { mv with need_next := 110 } st := by
  have h5 : ¬ is_direction (110 : Int) := by rintro ⟨-, h⟩; omega
  simp [pc_go, h0, h5]

theorem pc_step_if_tok (h0 : mv.need_next = 0) :
    pc_go wall junc f1 f2 callf (5 :: rest) mv st =
      pc_go wall junc f1 f2 callf rest { mv with need_next := 5 } st := by
  have h5 : ¬ is_direction (5 : Int) := by rintro ⟨-, h⟩; omega
  simp [pc_go, h0, h5]

theorem pc_step_normal_other (h0 : mv.need_next = 0)
    (h1 : ¬ cmd = 112) (h2 : ¬ cmd = 999)
    (h3 : ¬ (cmd = 10 ∧ f1 ≠ [])) (h4 : ¬ (cmd = 11 ∧ f2 ≠ []))
    (h5 : ¬ is_direction cmd) (h6 : ¬ cmd = 110) (h7 : ¬ cmd = 5) :
    pc_go wall junc f1 f2 callf (cmd :: rest) mv st =
      pc_go wall junc f1 f2 callf rest mv st := by
  simp [pc_go, h0, h1, h2, h3, h4, h5, h6, h7]

theorem pc_step_await_loop_num (hn : mv.need_next = 110) (hm : is_num cmd) :
    pc_go wall junc f1 f2 callf (cmd :: rest) mv st =
      pc_go wall junc f1 f2 callf rest
        (Machine.mk cmd 110 (get_num_value cmd)) st := by
  obtain ⟨hl, hr⟩ := hm
  have h1 : ¬ cmd = 112 := by omega
  have h2 : ¬ cmd = 999 := by omega
  have h3 : ¬ (cmd = 10 ∧ f1 ≠ []) := by rintro ⟨rfl, -⟩; omega
  have h4 : ¬ (cmd = 11 ∧ f2 ≠ []) := by rintro ⟨rfl, -⟩; omega
  have h5 : mv.need_next ≠ 0 := by omega
  have h6 : is_num cmd := ⟨hl, hr⟩
  simp [pc_go, h1, h2, h3, h4, h5, hn, h6]

theorem pc_step_await_loop_other (hn : mv.need_next = 110)
    (h1 : ¬ cmd = 112) (h2 : ¬ cmd = 999)
    (h3 : ¬ (cmd = 10 ∧ f1 ≠ [])) (h4 : ¬ (cmd = 11 ∧ f2 ≠ []))
    (hm : ¬ is_num cmd) :
    pc_go wall junc f1 f2 callf (cmd :: rest) mv st =
      pc_go wall junc f1 f2 callf rest mv st := by
  have h5 : mv.need_next ≠ 0 := by omega
  simp [pc_go, h1, h2, h3, h4, h5, hn, hm]

theorem pc_step_await_if_num (hn : mv.need_next = 5) (hm : is_if_num cmd) :
    pc_go wall junc f1 f2 callf (cmd :: rest) mv st =
      pc_go wall junc f1 f2 callf rest
        (Machine.mk cmd 5 (get_num_value cmd)) st := by
  obtain ⟨hl, hr⟩ := hm
  have h1 : ¬ cmd = 112 := by omega
  have h2 : ¬ cmd = 999 := by omega
  have h3 : ¬ (cmd = 10 ∧ f1 ≠ []) := by rintro ⟨rfl, -⟩; omega
  have h4 : ¬ (cmd = 11 ∧ f2 ≠ []) := by rintro ⟨rfl, -⟩; omega
  have h5 : mv.need_next ≠ 0 := by omega
  have h6 : mv.need_next ≠ 110 := by omega
  have h7 : is_if_num cmd := ⟨hl, hr⟩
  simp [pc_go, h1, h2, h3, h4, h5, h6, hn, h7]

theorem pc_step_await_if_invalid (hn : mv.need_next = 5)
    (h1 : ¬ cmd = 112) (h2 : ¬ cmd = 999)
    (h3 : ¬ (cmd = 10 ∧ f1 ≠ [])) (h4 : ¬ (cmd = 11 ∧ f2 ≠ []))
    (hm : ¬ is_if_num cmd) :
    pc_go wall junc f1 f2 callf (cmd :: rest) mv st =
      pc_go wall junc f1 f2 callf rest (Machine.mk cmd 5 mv.n_iter) st := by
  have h5 : mv.need_next ≠ 0 := by omega
  have h6 : mv.need_next ≠ 110 := by omega
  simp [pc_go, h1, h2, h3, h4, h5, h6, hn, hm]

theorem pc_step_loop_exec (hn0 : mv.need_next ≠ 0) (hn1 : mv.need_next ≠ 110)
    (hn2 : mv.need_next ≠ 5) (hpc : mv.pc = 110) (hd : is_direction cmd) :
    pc_go wall junc f1 f2 callf (cmd :: rest) mv st =
      pc_go wall junc f1 f2 callf rest (Machine.mk 0 0 mv.n_iter)
        (loop_moves wall cmd mv.n_iter.toNat st) := by
  obtain ⟨hl, hr⟩ := hd
  have h1 : ¬ cmd = 112 := by omega
  have h2 : ¬ cmd = 999 := by omega
  have h3 : ¬ (cmd = 10 ∧ f1 ≠ []) := by rintro ⟨rfl, -⟩; omega
  have h4 : ¬ (cmd = 11 ∧ f2 ≠ []) := by rintro ⟨rfl, -⟩; omega
  have h5 : is_direction cmd := ⟨hl, hr⟩
  simp [pc_go, h1, h2, h3, h4, hn0, hn1, hn2, hpc, h5]

theorem pc_step_if_exec (hn0 : mv.need_next ≠ 0) (hn1 : mv.need_next ≠ 110)
    (hn2 : mv.need_next ≠ 5) (hpc : mv.pc = 5) (hv : is_if_num mv.need_next)
    (hd : is_direction cmd) :
    pc_go wall junc f1 f2 callf (cmd :: rest) mv st =
      pc_go wall junc f1 f2 callf rest (Machine.mk 0 0 mv.n_iter)
        (if_run wall junc cmd (if_measure cmd st.mouse) mv.n_iter st) := by
  obtain ⟨hl, hr⟩ := hd
  have h1 : ¬ cmd = 112 := by omega
  have h2 : ¬ cmd = 999 := by omega
  have h3 : ¬ (cmd = 10 ∧ f1 ≠ []) := by rintro ⟨rfl, -⟩; omega
  have h4 : ¬ (cmd = 11 ∧ f2 ≠ []) := by rintro ⟨rfl, -⟩; omega
  have h5 : is_direction cmd := ⟨hl, hr⟩
  have h6 : ¬ (mv.pc = 110) := by omega
  simp [pc_go, h1, h2, h3, h4, hn0, hn1, hn2, hpc, hv, h5, h6]

theorem pc_step_dead (hn0 : mv.need_next ≠ 0) (hn1 : mv.need_next ≠ 110)
    (hn2 : mv.need_next ≠ 5)
    (h1 : ¬ cmd = 112) (h2 : ¬ cmd = 999)
    (h3 : ¬ (cmd = 10 ∧ f1 ≠ [])) (h4 : ¬ (cmd = 11 ∧ f2 ≠ []))
    (hno1 : ¬ (mv.pc = 110 ∧ is_direction cmd))
    (hno2 : ¬ (mv.pc = 5 ∧ is_if_num mv.need_next ∧ is_direction cmd)) :
    pc_go wall junc f1 f2 callf (cmd :: rest) mv st =
      pc_go wall junc f1 f2 callf rest mv st := by
  simp [pc_go, h1, h2, h3, h4, hn0, hn1, hn2, hno1, hno2]

/-- Any non-sentinel, non-filler, non-call token makes pc_go take one step
to the tail with some machine and interpreter state. -/
theorem pc_step_machine (h1 : ¬ cmd = 112) (h2 : ¬ cmd = 999)
    (h3 : ¬ (cmd = 10 ∧ f1 ≠ [])) (h4 : ¬ (cmd = 11 ∧ f2 ≠ [])) :
    ∃ mv' st', pc_go wall junc f1 f2 callf (cmd :: rest) mv st =
      pc_go wall junc f1 f2 callf rest mv' st' := by
  by_cases hn0 : mv.need_next = 0
  · by_cases hd : is_direction cmd
    · exact ⟨mv, _, pc_step_dir hd hn0⟩
    · by_cases h110 : cmd = 110
      · subst h110; exact ⟨_, st, pc_step_loop_tok hn0⟩
      · by_cases h5 : cmd = 5
        · subst h5; exact ⟨_, st, pc_step_if_tok hn0⟩
        · exact ⟨mv, st, pc_step_normal_other hn0 h1 h2 h3 h4 hd h110 h5⟩
  · by_cases hn1 : mv.need_next = 110
    · by_cases hm : is_num cmd
      · exact ⟨_, st, pc_step_await_loop_num hn1 hm⟩
      · exact ⟨mv, st, pc_step_await_loop_other hn1 h1 h2 h3 h4 hm⟩
    · by_cases hn2 : mv.need_next = 5
      · by_cases hm : is_if_num cmd
        · exact ⟨_, st, pc_step_await_if_num hn2 hm⟩
        · exact ⟨_, st, pc_step_await_if_invalid hn2 h1 h2 h3 h4 hm⟩
      · by_cases hb1 : mv.pc = 110 ∧ is_direction cmd
        · exact ⟨_, _, pc_step_loop_exec hn0 hn1 hn2 hb1.1 hb1.2⟩
        · by_cases hb2 : mv.pc = 5 ∧ is_if_num mv.need_next ∧ is_direction cmd
          · exact ⟨_, _, pc_step_if_exec hn0 hn1 hn2 hb2.1 hb2.2.1 hb2.2.2⟩
          · exact ⟨mv, st, pc_step_dead hn0 hn1 hn2 h1 h2 h3 h4 hb1 hb2⟩

end PcStep

/-! Claim C1: the cached and the on-demand distance-map paths agree. -/

theorem visit_eq (cd : Int) (c : Pos) :
    ∀ (ds : List Int) (q : List Pos) (m : Grid),
      direct_visit cd c ds q m = cache_visit cd c ds q m := by
  intro ds
  induction ds with
  | nil => intro q m; rfl
  | cons d ds ih =>
    intro q m
    simp only [direct_visit, cache_visit]
    by_cases h : (c.move d).is_valid ∧ readG m (c.move d) = 0 <;> simp [h, ih]

theorem bfs_eq : ∀ (fuel : Nat) (q : List Pos) (m : Grid),
    direct_bfs fuel q m = cache_bfs fuel q m := by
  intro fuel
  induction fuel with
  | zero => intro q m; rfl
  | succ n ih =>
    intro q m
    cases q with
    | nil => rfl
    | cons c rest =>
      simp only [direct_bfs, cache_bfs, visit_eq]
      apply ih

/-- Claim C1 (confirmed): for every wall layer and every target cell, the
distance map served from the initialised, enabled global cache equals the
map computed on demand by the uncached path of create_distance_map over the
same wall layer. -/
theorem c1_cache_path_eq_direct_path (wall : Grid) (r c : Nat)
    (hr : r < 11) (hc : c < 11) :
    create_distance_map true true (cache_build wall) wall ⟨(r : Int), (c : Int)⟩ =
    create_distance_map false false [] wall ⟨(r : Int), (c : Int)⟩ := by
  have hidx : r * 11 + c < 121 := by omega
  unfold create_distance_map
  simp only [Bool.true_and, Bool.false_and, if_true, if_false]
  unfold cache_get cache_build
  have h1 : ((r : Int) * 11 + (c : Int)).toNat = r * 11 + c := by omega
  rw [h1, List.getD_eq_getElem?_getD, List.getElem?_map, List.getElem?_range hidx]
  have h2 : (r * 11 + c) / 11 = r := by omega
  have h3 : (r * 11 + c) % 11 = c := by omega
  simp only [Option.map_some', Option.getD_some, h2, h3]
  unfold compute_distance_map create_distance_map_direct
  exact (bfs_eq _ _ _).symm

/-- Witness for C1 at cell (0,0) of the level-3 wall layer. -/
theorem c1_cache_path_eq_direct_path_w :
    create_distance_map true true (cache_build wall3) wall3
      ⟨((0 : Nat) : Int), ((0 : Nat) : Int)⟩ =
    create_distance_map false false [] wall3
      ⟨((0 : Nat) : Int), ((0 : Nat) : Int)⟩ :=
  c1_cache_path_eq_direct_path wall3 0 0 (by decide) (by decide)

/-! Claim C8: values of source and wall cells in every BFS distance map. -/

theorem visit_inv (wall : Grid) (src : Pos) (cd : Int) (c : Pos) :
    ∀ (ds : List Int) (q : List Pos) (m : Grid), bfs_inv wall src m →
      bfs_inv wall src (cache_visit cd c ds q m).2 := by
  intro ds
  induction ds with
  | nil => intro q m h; exact h
  | cons d ds ih =>
    intro q m h
    simp only [cache_visit]
    by_cases hc : (c.move d).is_valid ∧ readG m (c.move d) = 0
    · simp only [if_pos hc]
      apply ih
      obtain ⟨h1, h2⟩ := h
      constructor
      · rw [readG_writeG_ne]
        · exact h1
        · intro he
          have := @readG_congr_gidx m _ _ he
          rw [hc.2, h1] at this
          exact absurd this (by decide)
      · intro p hp hne hw
        rw [readG_writeG_ne]
        · exact h2 p hp hne hw
        · intro he
          have := @readG_congr_gidx m _ _ he
          rw [hc.2, h2 p hp hne hw] at this
          exact absurd this (by decide)
    · simp only [if_neg hc]
      exact ih q m h

theorem bfs_inv_loop (wall : Grid) (src : Pos) :
    ∀ (fuel : Nat) (q : List Pos) (m : Grid), bfs_inv wall src m →
      bfs_inv wall src (cache_bfs fuel q m) := by
  intro fuel
  induction fuel with
  | zero => intro q m h; exact h
  | succ n ih =>
    intro q m h
    cases q with
    | nil => exact h
    | cons c rest =>
      simp only [cache_bfs]
      exact ih _ _ (visit_inv wall src _ c dirs4 rest m h)

theorem init_inv (wall : Grid) (src : Pos) (hs : src.is_valid) :
    bfs_inv wall src
      (writeG ((List.range 121).map
        (fun i => if wall.getD i 0 ≠ 0 then -1 else 0)) src 1) := by
  have hlen : gidx src < 121 := gidx_lt_of_valid hs
  constructor
  · rw [readG_writeG_self]
    simp only [List.length_map, List.length_range]
    exact hlen
  · intro p hp hne hw
    have hg : gidx src ≠ gidx p := fun he =>
      hne (gidx_inj hp hs he.symm)
    rw [readG_writeG_ne hg]
    unfold readG at hw ⊢
    rw [List.getD_eq_getElem?_getD] at hw
    rw [List.getD_eq_getElem?_getD, List.getElem?_map,
      List.getElem?_range (gidx_lt_of_valid hp)]
    simp [hw]

/-- Claim C8 (amended): in every BFS distance map, from either path, the
source cell's own value is 1 (never 0) and every valid wall cell other than
the source holds the sentinel -1.  A wall cell that is itself the source is
overwritten with 1 by the seeding step, which is what the counterexample
exhibits. -/
theorem c8_source_one_walls_minus_one (wall : Grid) (src : Pos)
    (hs : src.is_valid) :
    (readG (compute_distance_map wall src.x src.y) src = 1 ∧
     readG (create_distance_map_direct wall src) src = 1) ∧
    ∀ p : Pos, p.is_valid → p ≠ src → readG wall p ≠ 0 →
      readG (compute_distance_map wall src.x src.y) p = -1 ∧
      readG (create_distance_map_direct wall src) p = -1 := by
  have hdir : create_distance_map_direct wall src =
      compute_distance_map wall src.x src.y := by
    unfold create_distance_map_direct compute_distance_map
    exact bfs_eq _ _ _
  have hmain : bfs_inv wall src (compute_distance_map wall src.x src.y) := by
    unfold compute_distance_map
    exact bfs_inv_loop wall src _ _ _ (init_inv wall src hs)
  refine ⟨⟨hmain.1, ?_⟩, fun p hp hne hw => ⟨hmain.2 p hp hne hw, ?_⟩⟩
  · rw [hdir]; exact hmain.1
  · rw [hdir]; exact hmain.2 p hp hne hw

/-- Counterexample for C8 as stated: cell (0,4) of the level-3 wall layer is
a wall, yet the cache-built distance map whose source is (0,4) holds 1
there, not the sentinel -1. -/
theorem c8_cex_wall_source_not_minus_one :
    readG wall3 ⟨0, 4⟩ ≠ 0 ∧
    readG (cache_get (cache_build wall3) 0 4) ⟨0, 4⟩ = 1 ∧
    readG (cache_get (cache_build wall3) 0 4) ⟨0, 4⟩ ≠ -1 := by
  refine ⟨by decide, ?_, ?_⟩ <;> decide

/-- Witness for C8 (amended) on the level-3 wall layer with source (0,0). -/
theorem c8_source_one_walls_minus_one_w :
    readG (compute_distance_map wall3 (0 : Int) (0 : Int)) ⟨0, 0⟩ = 1 ∧
    readG (compute_distance_map wall3 (0 : Int) (0 : Int)) ⟨0, 4⟩ = -1 :=
  ⟨(c8_source_one_walls_minus_one wall3 ⟨0, 0⟩ (by decide)).1.1,
   ((c8_source_one_walls_minus_one wall3 ⟨0, 0⟩ (by decide)).2 ⟨0, 4⟩
     (by decide) (by decide) (by decide)).1⟩

/-! Claim C10: the snapshot boundary unconditionally reactivates entities. -/

theorem ent_from_active {l : List (Int × Int)} {i : Nat} {e : Entity}
    (h : e.active = true) : (ent_from l i e).active = true := by
  unfold ent_from; split <;> simp [h]

theorem ent_last_from_active {o : Option (List (Int × Int))} {i : Nat}
    {e : Entity} : (ent_last_from o i e).active = e.active := by
  cases o with
  | none => rfl
  | some l => simp only [ent_last_from]; split <;> rfl

theorem ent_dir_from_active {o : Option (List Int)} {i : Nat} {e : Entity} :
    (ent_dir_from o i e).active = e.active := by
  cases o with
  | none => rfl
  | some l => simp only [ent_dir_from]; split <;> rfl

/-- Claim C10 (confirmed): dict_to_state sets active = true on every
pursuer, stationary bonus item and roaming bonus item regardless of the
snapshot's contents, so a snapshot cannot represent an already collected
item; in particular re-importing an exported state reactivates collected
items. -/
theorem c10_dict_to_state_forces_active :
    (∀ s : Snapshot,
      ((dict_to_state s).cat0.active = true ∧
       (dict_to_state s).cat1.active = true) ∧
      ((dict_to_state s).mb0.active = true ∧
       (dict_to_state s).mb1.active = true) ∧
      ((dict_to_state s).cb0.active = true ∧
       (dict_to_state s).cb1.active = true)) ∧
    (∀ g : GameState,
      (dict_to_state (state_to_dict g)).mb0.active = true ∧
      (dict_to_state (state_to_dict g)).cb0.active = true) := by
  have hbase : ∀ s : Snapshot,
      ((dict_to_state s).cat0.active = true ∧
       (dict_to_state s).cat1.active = true) ∧
      ((dict_to_state s).mb0.active = true ∧
       (dict_to_state s).mb1.active = true) ∧
      ((dict_to_state s).cb0.active = true ∧
       (dict_to_state s).cb1.active = true) := by
    intro s
    unfold dict_to_state
    simp only [ent_dir_from_active, ent_last_from_active]
    refine ⟨⟨?_, ?_⟩, ⟨?_, ?_⟩, ⟨?_, ?_⟩⟩ <;>
      exact ent_from_active rfl
  exact ⟨hbase, fun g => ⟨((hbase (state_to_dict g)).2.1).1,
    ((hbase (state_to_dict g)).2.2).1⟩⟩

/-! Claim C9: simulate_program does not mutate the persisted state. -/

/-- Claim C9 (confirmed): whenever simulate_program returns, the simulator's
stored GameState is exactly the one before the call (only the rng index
advances), and simulate_program_and_apply is a pure pass-through returning
the same result. -/
theorem c9_simulate_preserves_state (fuel : Nat) (program : List Int)
    (sim : Sim) (r : Int × Sim)
    (h : simulate_program fuel program sim = some r) :
    r.2.state = sim.state ∧
    simulate_program_and_apply fuel program sim =
      simulate_program fuel program sim := by
  refine ⟨?_, rfl⟩
  simp only [simulate_program] at h
  split at h
  · exact absurd h (by simp)
  · simp only [Option.some.injEq] at h
    rw [← h]

set_option maxRecDepth 4000 in
/-- Witness for C9: the END-only program on the default state. -/
theorem c9_simulate_preserves_state_w :
    (((0 : Int), ({ simW with rngIdx := 200 } : Sim)) : Int × Sim).2.state =
      simW.state ∧
    simulate_program_and_apply 0 [112] simW = simulate_program 0 [112] simW :=
  c9_simulate_preserves_state 0 [112] simW (0, { simW with rngIdx := 200 })
    (by rfl)

/-! Claim C3: termination of process_commands and simulate_program. -/

theorem pc_call_self_none (wall junc : Grid) (f2 : List Int) :
    ∀ (fuel : Nat) (st : InterpSt),
      pc_call wall junc [10] f2 fuel [10] st = none := by
  intro fuel
  induction fuel with
  | zero => intro st; rfl
  | succ n ih => intro st; simp [pc_call, pc_go, ih]

/-- Counterexample for C3 as stated: a function body that contains its own
call token makes process_commands diverge (no call-depth fuel ever
suffices), so the recursive execution pass does not terminate on every pair
of function bodies. -/
theorem c3_cex_self_call_diverges :
    ¬ TerminatesPC (List.replicate 121 0) (List.replicate 121 0)
      [10] [] [10] ⟨⟨5, 5⟩, [], [], 0⟩ := by
  rintro ⟨fuel, h⟩
  rw [process_commands] at h
  simp [pc_go, pc_call_self_none] at h

theorem pc_go_call_free (wall junc : Grid) (f1 f2 : List Int)
    (callf : List Int → InterpSt → Option InterpSt) :
    ∀ (cmds : List Int), call_free cmds →
      ∀ (mv : Machine) (st : InterpSt),
        (pc_go wall junc f1 f2 callf cmds mv st).isSome = true := by
  intro cmds
  induction cmds with
  | nil => intro _ mv st; simp [pc_go]
  | cons t rest ih =>
    intro hcf mv st
    have ht : t ≠ 10 ∧ t ≠ 11 := hcf t (by simp)
    have hrest : call_free rest := fun x hx => hcf x (by simp [hx])
    by_cases h112 : t = 112
    · subst h112; rw [pc_step_end]; rfl
    · by_cases h999 : t = 999
      · subst h999; rw [pc_step_empty]; exact ih hrest mv st
      · obtain ⟨mv', st', hstep⟩ := @pc_step_machine wall junc f1 f2 callf
          t rest mv st h112 h999
          (fun hc => ht.1 hc.1) (fun hc => ht.2 hc.1)
        rw [hstep]
        exact ih hrest mv' st'

theorem pc_go_shallow (wall junc : Grid) (f1 f2 : List Int)
    (hf1 : call_free f1) (hf2 : call_free f2) (fuel : Nat) :
    ∀ (cmds : List Int) (mv : Machine) (st : InterpSt),
      (pc_go wall junc f1 f2 (pc_call wall junc f1 f2 (fuel + 1)) cmds mv
        st).isSome = true := by
  intro cmds
  induction cmds with
  | nil => intro mv st; simp [pc_go]
  | cons t rest ih =>
    intro mv st
    by_cases h112 : t = 112
    · subst h112; rw [pc_step_end]; rfl
    · by_cases h999 : t = 999
      · subst h999; rw [pc_step_empty]; exact ih mv st
      · by_cases hc1 : t = 10 ∧ f1 ≠ []
        · obtain ⟨rfl, hne⟩ := hc1
          rw [pc_step_call1 hne]
          have h1 : (pc_call wall junc f1 f2 (fuel + 1) f1 st).isSome = true := by
            simp only [pc_call]
            exact pc_go_call_free wall junc f1 f2 _ f1 hf1 _ st
          obtain ⟨st', hst'⟩ := Option.isSome_iff_exists.mp h1
          rw [hst']
          exact ih mv st'
        · by_cases hc2 : t = 11 ∧ f2 ≠ []
          · obtain ⟨rfl, hne⟩ := hc2
            rw [pc_step_call2 hne]
            have h2 : (pc_call wall junc f1 f2 (fuel + 1) f2 st).isSome = true := by
              simp only [pc_call]
              exact pc_go_call_free wall junc f1 f2 _ f2 hf2 _ st
            obtain ⟨st', hst'⟩ := Option.isSome_iff_exists.mp h2
            rw [hst']
            exact ih mv st'
          · obtain ⟨mv', st', hstep⟩ := @pc_step_machine wall junc f1 f2
              (pc_call wall junc f1 f2 (fuel + 1))
              t rest mv st h112 h999 hc1 hc2
            rw [hstep]
            exact ih mv' st'

theorem parse_go_funcs_call_free (getF : Int → List Int)
    (h : ∀ id, call_free (getF id)) :
    ∀ (prog : List Int) (fid sid : Int) (acc : ParsedProgram),
      call_free acc.func1 → call_free acc.func2 →
      call_free (parse_go getF prog fid sid acc).func1 ∧
      call_free (parse_go getF prog fid sid acc).func2 := by
  intro prog
  induction prog with
  | nil => intro fid sid acc h1 h2; exact ⟨h1, h2⟩
  | cons t rest ih =>
    intro fid sid acc h1 h2
    simp only [parse_go]
    split_ifs <;>
      first
        | exact ⟨h1, h2⟩
        | exact ih _ _ _ (h t) h2
        | exact ih _ _ _ h1 (h t)
        | exact ih _ _ _ h1 h2

/-- Claim C3 (amended): simulate_program terminates (returns a score) for
every program and state provided the function bodies served by the library
contain no call tokens; one unit of call-depth fuel then suffices.  The
restriction is forced by the counterexample: a self-referential body
diverges. -/
theorem c3_terminates_when_bodies_call_free (sim : Sim)
    (hlib : ∀ id, call_free (sim.getF id))
    (program : List Int) (fuel : Nat) (hf : 1 ≤ fuel) :
    (simulate_program fuel program sim).isSome = true := by
  obtain ⟨k, rfl⟩ : ∃ k, fuel = k + 1 := ⟨fuel - 1, by omega⟩
  have hacc : call_free ([] : List Int) := by intro t ht; simp at ht
  have hp : call_free (parse_program sim.getF program).func1 ∧
      call_free (parse_program sim.getF program).func2 := by
    unfold parse_program
    exact parse_go_funcs_call_free sim.getF hlib program (-1) (-1)
      ⟨[], [], []⟩ hacc hacc
  obtain ⟨ar, har⟩ := Option.isSome_iff_exists.mp
    (pc_go_shallow sim.state.wall sim.state.junc _ _ hp.1 hp.2 k
      (parse_program sim.getF program).main_cmd ⟨0, 0, 0⟩
      ⟨sim.state.mouse, [], [], 0⟩)
  simp only [simulate_program, get_mouse_actions, process_commands, har]
  rfl

/-- Witness for C3 (amended): the END-only program on the default state with
an empty function library terminates with fuel 1. -/
theorem c3_terminates_when_bodies_call_free_w :
    (simulate_program 1 [112] simW).isSome = true :=
  c3_terminates_when_bodies_call_free simW
    (fun _ => by intro t ht; simp [simW] at ht) [112] 1 (by decide)

/-! Claim C5: recovery after an invalid conditional count. -/

/-- Counterexample for C5 as stated: after the conditional token 5 is
followed by the invalid count token 100, the next direction token is NOT
processed normally again: the run of [5, 100, 1] emits no action and leaves
the mouse in place, while the same direction token alone emits one action
and moves the mouse. -/
theorem c5_cex_not_processed_normally :
    process_commands grid0 grid0 [] [] 1 [5, 100, 1] ⟨0, 0, 0⟩
        ⟨⟨5, 5⟩, [], [], 0⟩ = some ⟨⟨5, 5⟩, [], [], 0⟩ ∧
    process_commands grid0 grid0 [] [] 1 [1] ⟨0, 0, 0⟩
        ⟨⟨5, 5⟩, [], [], 0⟩ = some ⟨⟨6, 5⟩, [1], [], 1⟩ := by
  constructor <;> decide

theorem pc_go_wedged (wall junc : Grid)
    (callf : List Int → InterpSt → Option InterpSt) (t : Int)
    (hti : ¬ is_if_num t) (h0 : t ≠ 0) (h5 : t ≠ 5) (h110 : t ≠ 110) :
    ∀ (rest : List Int) (n : Int) (st : InterpSt),
      pc_go wall junc [] [] callf rest ⟨t, 5, n⟩ st = some st := by
  intro rest
  induction rest with
  | nil => intro n st; rfl
  | cons r rest ih =>
    intro n st
    by_cases h112 : r = 112
    · subst h112; rw [pc_step_end]
    · by_cases h999 : r = 999
      · subst h999; rw [pc_step_empty]; exact ih n st
      · rw [pc_step_dead h0 h110 h5 h112 h999 (by simp) (by simp)
          (by rintro ⟨h, -⟩; simp at h)
          (by rintro ⟨-, h, -⟩; exact hti h)]
        exact ih n st

/-- Claim C5 (amended): in AWAIT_IF_COUNT a token outside 1..7 (other than
the tokens 0, 5, 110, the end sentinel 112 and the filler 999) still
advances the state machine, but it leaves need_next holding that invalid
token, a state no later branch can leave: with empty function bodies every
following token of the current sequence, direction, loop and conditional
tokens included, is consumed without any effect for the remainder of the
sequence.  Conditional execution is disabled permanently, not merely until
the next top-level token.  (An invalid token 0 returns the machine to
NORMAL, and 5 or 110 re-enter the await states, which is the most the code
ever recovers.) -/
theorem c5_invalid_if_count_wedges_machine (wall junc : Grid) (fuel : Nat)
    (t : Int) (hti : ¬ is_if_num t) (h0 : t ≠ 0) (h5 : t ≠ 5)
    (h110 : t ≠ 110) (h112 : t ≠ 112) (h999 : t ≠ 999)
    (rest : List Int) (st : InterpSt) :
    process_commands wall junc [] [] fuel (5 :: t :: rest) ⟨0, 0, 0⟩ st =
      some st := by
  unfold process_commands
  rw [pc_step_if_tok rfl]
  rw [pc_step_await_if_invalid rfl h112 h999 (by simp) (by simp) hti]
  exact pc_go_wedged wall junc _ t hti h0 h5 h110 rest 0 st

/-- Witness for C5 (amended): the invalid count 100 wedges the machine and
the following direction tokens 1 and 2 are ignored. -/
theorem c5_invalid_if_count_wedges_machine_w :
    process_commands grid0 grid0 [] [] 1 [5, 100, 1, 2] ⟨0, 0, 0⟩
        ⟨⟨5, 5⟩, [], [], 0⟩ = some ⟨⟨5, 5⟩, [], [], 0⟩ :=
  c5_invalid_if_count_wedges_machine grid0 grid0 1 100 (by decide)
    (by decide) (by decide) (by decide) (by decide) (by decide)
    [1, 2] ⟨⟨5, 5⟩, [], [], 0⟩

/-! Claim C6: characterisation of the parsing pass. -/

theorem parse_go_two (getF : Int → List Int) (a b : Int)
    (ha : is_func_lib a) (hb : is_func_lib b) (hne : b ≠ a) :
    ∀ (l : List Int) (acc : ParsedProgram),
      parse_go getF l a b acc =
        ⟨acc.main_cmd ++
          (spec_scan l).filterMap (spec_token_map (some a) (some b)),
         acc.func1, acc.func2⟩ := by
  have ha0 : ¬ a < 0 := by have := ha.1; omega
  have hb0 : ¬ b < 0 := by have := hb.1; omega
  intro l
  induction l with
  | nil => intro acc; simp [parse_go, spec_scan]
  | cons t l ih =>
    intro acc
    by_cases h112 : t = 112
    · subst h112
      simp [parse_go, spec_scan]
    · have hsc : spec_scan (t :: l) = t :: spec_scan l := by
        simp [spec_scan, h112]
      by_cases h999 : t = 999
      · subst h999
        simp only [parse_go, if_neg (by decide : ¬ (999 : Int) = 112),
          if_pos rfl]
        rw [ih, hsc]
        simp [spec_token_map]
      · by_cases hlib : is_func_lib t
        · by_cases hta : t = a
          · subst hta
            simp only [parse_go, if_neg h112, if_neg h999, if_pos hlib,
              if_neg ha0, if_pos rfl]
            rw [ih, hsc]
            have hv : spec_token_map (some t) (some b) t = some 10 := by
              simp [spec_token_map, h999, hlib]
            simp [hv]
          · by_cases htb : t = b
            · subst htb
              simp only [parse_go, if_neg h112, if_neg h999, if_pos hlib,
                if_neg ha0, if_neg hta, if_neg hb0, if_pos rfl]
              rw [ih, hsc]
              have hat : ¬ a = t := fun h => hta h.symm
              have hv : spec_token_map (some a) (some t) t = some 11 := by
                simp [spec_token_map, h999, hlib, hat]
              simp [hv]
            · simp only [parse_go, if_neg h112, if_neg h999, if_pos hlib,
                if_neg ha0, if_neg hta, if_neg hb0, if_neg htb]
              rw [ih, hsc]
              have hat : ¬ a = t := fun h => hta h.symm
              have hbt : ¬ b = t := fun h => htb h.symm
              have hv : spec_token_map (some a) (some b) t = none := by
                simp [spec_token_map, h999, hlib, hat, hbt]
              simp [hv]
        · simp only [parse_go, if_neg h112, if_neg h999, if_neg hlib]
          rw [ih, hsc]
          have hv : spec_token_map (some a) (some b) t = some t := by
            simp [spec_token_map, h999, hlib]
          simp [hv]

theorem parse_go_one (getF : Int → List Int) (a : Int)
    (ha : is_func_lib a) :
    ∀ (l : List Int) (acc : ParsedProgram),
      parse_go getF l a (-1) acc =
        match (spec_scan l).find? (fb_lib_ne a) with
        | none =>
          ⟨acc.main_cmd ++
            (spec_scan l).filterMap (spec_token_map (some a) none),
           acc.func1, acc.func2⟩
        | some b =>
          ⟨acc.main_cmd ++
            (spec_scan l).filterMap (spec_token_map (some a) (some b)),
           acc.func1, getF b⟩ := by
  have ha0 : ¬ a < 0 := by have := ha.1; omega
  intro l
  induction l with
  | nil => intro acc; simp [parse_go, spec_scan]
  | cons t l ih =>
    intro acc
    by_cases h112 : t = 112
    · subst h112
      simp [parse_go, spec_scan]
    · have hsc : spec_scan (t :: l) = t :: spec_scan l := by
        simp [spec_scan, h112]
      by_cases h999 : t = 999
      · subst h999
        simp only [parse_go, if_neg (by decide : ¬ (999 : Int) = 112),
          if_pos rfl]
        rw [ih, hsc]
        have hnl : ¬ is_func_lib (999 : Int) := by decide
        have hf : fb_lib_ne a 999 = false := by simp [fb_lib_ne, hnl]
        rcases hh : (spec_scan l).find? (fb_lib_ne a) with _ | b <;>
          simp [List.find?_cons, hf, hh, spec_token_map]
      · by_cases hlib : is_func_lib t
        · by_cases hta : t = a
          · subst hta
            simp only [parse_go, if_neg h112, if_neg h999, if_pos hlib,
              if_neg ha0, if_pos rfl]
            rw [ih, hsc]
            have hf : fb_lib_ne t t = false := by simp [fb_lib_ne]
            have hv : ∀ B, spec_token_map (some t) B t = some 10 := by
              intro B; simp [spec_token_map, h999, hlib]
            rcases hh : (spec_scan l).find? (fb_lib_ne t) with _ | b <;>
              simp [List.find?_cons, hf, hh, hv]
          · simp only [parse_go, if_neg h112, if_neg h999, if_pos hlib,
              if_neg ha0, if_neg hta,
              if_pos (by norm_num : (-1 : Int) < 0)]
            rw [parse_go_two getF a t ha hlib hta, hsc]
            have hf : fb_lib_ne a t = true := by simp [fb_lib_ne, hlib, hta]
            have hat : ¬ a = t := fun h => hta h.symm
            have hv : spec_token_map (some a) (some t) t = some 11 := by
              simp [spec_token_map, h999, hlib, hat]
            simp [List.find?_cons, hf, hv]
        · simp only [parse_go, if_neg h112, if_neg h999, if_neg hlib]
          rw [ih, hsc]
          have hf : fb_lib_ne a t = false := by simp [fb_lib_ne, hlib]
          have hv : ∀ B, spec_token_map (some a) B t = some t := by
            intro B; simp [spec_token_map, h999, hlib]
          rcases hh : (spec_scan l).find? (fb_lib_ne a) with _ | b <;>
            simp [List.find?_cons, hf, hh, hv]

theorem parse_go_zero (getF : Int → List Int) :
    ∀ (l : List Int) (acc : ParsedProgram),
      parse_go getF l (-1) (-1) acc =
        match (spec_scan l).find? fb_lib with
        | none =>
          ⟨acc.main_cmd ++
            (spec_scan l).filterMap (spec_token_map none none),
           acc.func1, acc.func2⟩
        | some a =>
          match (spec_scan l).find? (fb_lib_ne a) with
          | none =>
            ⟨acc.main_cmd ++
              (spec_scan l).filterMap (spec_token_map (some a) none),
             getF a, acc.func2⟩
          | some b =>
            ⟨acc.main_cmd ++
              (spec_scan l).filterMap (spec_token_map (some a) (some b)),
             getF a, getF b⟩ := by
  intro l
  induction l with
  | nil => intro acc; simp [parse_go, spec_scan]
  | cons t l ih =>
    intro acc
    by_cases h112 : t = 112
    · subst h112
      simp [parse_go, spec_scan]
    · have hsc : spec_scan (t :: l) = t :: spec_scan l := by
        simp [spec_scan, h112]
      by_cases h999 : t = 999
      · subst h999
        simp only [parse_go, if_neg (by decide : ¬ (999 : Int) = 112),
          if_pos rfl]
        rw [ih, hsc]
        have hnl : ¬ is_func_lib (999 : Int) := by decide
        have hf : fb_lib (999 : Int) = false := by simp [fb_lib, hnl]
        have hf2 : ∀ x : Int, fb_lib_ne x 999 = false := by
          intro x; simp [fb_lib_ne, hnl]
        rcases hh1 : (spec_scan l).find? fb_lib with _ | a
        · simp [List.find?_cons, hf, hh1, spec_token_map]
        · rcases hh2 : (spec_scan l).find? (fb_lib_ne a) with _ | b <;>
            simp [List.find?_cons, hf, hf2, hh1, hh2, spec_token_map]
      · by_cases hlib : is_func_lib t
        · simp only [parse_go, if_neg h112, if_neg h999, if_pos hlib,
            if_pos (by norm_num : (-1 : Int) < 0)]
          rw [parse_go_one getF t hlib, hsc]
          have hft : fb_lib t = true := by simp [fb_lib, hlib]
          have hself : fb_lib_ne t t = false := by simp [fb_lib_ne]
          have hv : ∀ B, spec_token_map (some t) B t = some 10 := by
            intro B; simp [spec_token_map, h999, hlib]
          rcases hh : (spec_scan l).find? (fb_lib_ne t) with _ | b <;>
            simp [List.find?_cons, hft, hself, hh, hv]
        · simp only [parse_go, if_neg h112, if_neg h999, if_neg hlib]
          rw [ih, hsc]
          have hf : fb_lib t = false := by simp [fb_lib, hlib]
          have hf2 : ∀ x : Int, fb_lib_ne x t = false := by
            intro x; simp [fb_lib_ne, hlib]
          have hv : ∀ A B, spec_token_map A B t = some t := by
            intro A B; simp [spec_token_map, h999, hlib]
          rcases hh1 : (spec_scan l).find? fb_lib with _ | a
          · simp [List.find?_cons, hf, hh1, hv]
          · rcases hh2 : (spec_scan l).find? (fb_lib_ne a) with _ | b <;>
              simp [List.find?_cons, hf, hf2, hh1, hh2, hv]

/-- Counterexample for C6 as stated: the filler token 999 is a non-function
token, yet parse does not pass it through verbatim into the main sequence
(the program consisting of the single filler token parses to an empty main
sequence). -/
theorem c6_cex_filler_not_verbatim :
    (parse_program (fun _ => []) [999]).main_cmd = [] ∧
    ¬ is_func_lib (999 : Int) ∧ ([] : List Int) ≠ [999] := by
  refine ⟨rfl, by decide, by simp⟩

/-- Claim C6 (amended): parse binds the first distinct function-library id
before the end sentinel to call-slot-1 and the next different id to
call-slot-2, rewrites every further occurrence of a bound id to that slot's
call token, silently drops any third distinct id, and passes all other
non-function tokens except the filler token through verbatim, in order, into
the main sequence; at most the two bound ids resolve bodies.  Stated as an
exact characterisation: parse_program equals the declarative parse_spec on
every program and every function library. -/
theorem c6_parse_matches_spec (getF : Int → List Int) (program : List Int) :
    parse_program getF program = parse_spec getF program := by
  rw [parse_program, parse_go_zero]
  unfold parse_spec spec_first_id spec_second_id
  rcases hh1 : (spec_scan program).find? fb_lib with _ | a
  · simp [spec_first_id, hh1]
  · rcases hh2 : (spec_scan program).find? (fb_lib_ne a) with _ | b <;>
      simp [spec_first_id, hh1, hh2]

/-! Claim C4: the conditional-run (IF) execution. -/

theorem if_measure_lt (wall : Grid) {d : Int} {p : Pos}
    (hd : is_direction d) (h : movable wall p d) :
    if_measure d (move_pos p d) < if_measure d p := by
  obtain ⟨hd0, hd3⟩ := hd
  obtain ⟨⟨a, b, c, e⟩, -⟩ := h
  interval_cases d <;>
    simp only [if_measure, move_pos, Pos.move, dirDX, dirDY, clamp01] at * <;>
    simp_all <;> omega

/-- Full characterisation of the conditional-run loop: started with junction
budget N and enough fuel (the call site seeds if_measure), it performs some
number k of successful moves in direction d, appending exactly the action d
per successful move, touching neither the wall-collision set nor anything
else, and k is exactly the first point where either the junction budget is
exhausted or the next attempt is blocked (which appends nothing). -/
theorem if_run_spec (wall junc : Grid) (d : Int) (hd : is_direction d) :
    ∀ (fuel : Nat) (N : Int) (st : InterpSt),
      if_measure d st.mouse ≤ fuel →
      ∃ k : Nat,
        (if_run wall junc d fuel N st).mouse = iter_move d k st.mouse ∧
        (if_run wall junc d fuel N st).actions =
          st.actions ++ List.replicate k d ∧
        (if_run wall junc d fuel N st).wall_cols = st.wall_cols ∧
        (if_run wall junc d fuel N st).action_idx = st.action_idx + k ∧
        (∀ j, j < k → movable wall (iter_move d j st.mouse) d) ∧
        (∀ j, j < k → (junc_count junc d st.mouse j : Int) < N) ∧
        ((junc_count junc d st.mouse k : Int) = N ∨
         ((junc_count junc d st.mouse k : Int) < N ∧
           ¬ movable wall (iter_move d k st.mouse) d) ∨
         (N ≤ 0 ∧ k = 0)) := by
  intro fuel
  induction fuel with
  | zero =>
    intro N st hf
    have hnm : ¬ movable wall st.mouse d :=
      if_measure_zero_not_movable wall hd (by omega)
    refine ⟨0, rfl, by simp [if_run], rfl, by simp [if_run], ?_, ?_, ?_⟩
    · intro j hj; omega
    · intro j hj; omega
    · rcases lt_or_le 0 N with hN | hN
      · exact Or.inr (Or.inl ⟨by simpa [junc_count] using hN,
          by simpa [iter_move] using hnm⟩)
      · exact Or.inr (Or.inr ⟨hN, rfl⟩)
  | succ n ih =>
    intro N st hf
    by_cases hN : N > 0
    · by_cases hmv : movable wall st.mouse d
      · have hlt : if_measure d (move_pos st.mouse d) < if_measure d st.mouse :=
          if_measure_lt wall hd hmv
        have hstep : if_run wall junc d (n + 1) N st =
            if_run wall junc d n
              (if readG junc (move_pos st.mouse d) ≠ 0 then N - 1 else N)
              { st with mouse := move_pos st.mouse d,
                        actions := st.actions ++ [d],
                        action_idx := st.action_idx + 1 } := by
          simp [if_run, hN, hmv]
        obtain ⟨k', m1, m2, m3, m4, m5, m6, m7⟩ := ih
          (if readG junc (move_pos st.mouse d) ≠ 0 then N - 1 else N)
          { st with mouse := move_pos st.mouse d,
                    actions := st.actions ++ [d],
                    action_idx := st.action_idx + 1 }
          (by simpa using Nat.le_of_lt_succ (lt_of_lt_of_le hlt hf))
        simp only at m1 m2 m3 m4 m5 m6 m7
        have hiter : ∀ j : Nat, iter_move d (j + 1) st.mouse =
            iter_move d j (move_pos st.mouse d) := fun j => rfl
        have hjc : ∀ j : Nat, junc_count junc d st.mouse (j + 1) =
            (if readG junc (move_pos st.mouse d) ≠ 0 then 1 else 0) +
              junc_count junc d (move_pos st.mouse d) j := fun j => rfl
        refine ⟨k' + 1, ?_, ?_, ?_, ?_, ?_, ?_, ?_⟩
        · rw [hstep, m1, hiter]
        · rw [hstep, m2]
          simp [List.replicate_succ]
        · rw [hstep, m3]
        · rw [hstep, m4]; omega
        · intro j hj
          cases j with
          | zero => simpa [iter_move] using hmv
          | succ j' =>
            rw [hiter]
            exact m5 j' (by omega)
        · intro j hj
          cases j with
          | zero => simpa [junc_count] using hN
          | succ j' =>
            have h6 := m6 j' (by omega)
            rw [hjc]
            push_cast
            split at h6 <;> rename_i hsp <;> simp [hsp] <;> push_cast <;> omega
        · have hjck := hjc k'
          rcases m7 with h7 | ⟨h7a, h7b⟩ | ⟨h7a, h7b⟩
          · left
            rw [hjck]
            push_cast
            split at h7 <;> rename_i hsp <;> simp [hsp] <;> push_cast at h7 ⊢ <;> omega
          · right; left
            constructor
            · rw [hjck]
              push_cast
              split at h7a <;> rename_i hsp <;> simp [hsp] <;>
                push_cast at h7a ⊢ <;> omega
            · rw [hiter]
              exact h7b
          · left
            subst h7b
            rw [hjck]
            simp only [junc_count, Nat.add_zero]
            split at h7a <;> rename_i hsp <;> simp [hsp] <;> omega
      · have hret : if_run wall junc d (n + 1) N st = st := by
          simp [if_run, hN, hmv]
        refine ⟨0, by rw [hret]; simp [iter_move], by rw [hret]; simp,
          by rw [hret], by rw [hret]; simp,
          by intro j hj; omega, by intro j hj; omega,
          Or.inr (Or.inl ⟨by simpa [junc_count] using hN,
            by simpa [iter_move] using hmv⟩)⟩
    · have hret : if_run wall junc d (n + 1) N st = st := by
        simp [if_run, hN]
      refine ⟨0, by rw [hret]; simp [iter_move], by rw [hret]; simp,
        by rw [hret], by rw [hret]; simp,
        by intro j hj; omega, by intro j hj; omega,
        Or.inr (Or.inr ⟨by omega, rfl⟩)⟩

/-- Claim C4 (confirmed): when a direction token follows a captured valid
conditional count (101..107, value N in 1..7), the machine runs the
conditional run: some number k of successful moves, each appending exactly
one action (the direction token); the junction budget falls by one per
junction cell stepped onto; the run stops at the first point where the
budget is exhausted or the attempt is blocked; a blocked attempt appends no
action and records no wall-collision index; the wall-collision set and all
other interpreter outputs are untouched apart from the k appended actions
and the action index advancing by k; afterwards the machine continues on
the remaining tokens in the NORMAL state (need_next = 0, pc = 0). -/
theorem c4_conditional_run (wall junc : Grid) (f1 f2 : List Int)
    (callf : List Int → InterpSt → Option InterpSt)
    (numTok d : Int) (hnum : is_if_num numTok) (hd : is_direction d)
    (rest : List Int) (pc0 n0 : Int) (st : InterpSt) :
    pc_go wall junc f1 f2 callf (numTok :: d :: rest) ⟨5, pc0, n0⟩ st =
      pc_go wall junc f1 f2 callf rest ⟨0, 0, get_num_value numTok⟩
        (if_run wall junc d (if_measure d st.mouse)
          (get_num_value numTok) st) ∧
    ∃ k : Nat,
      (if_run wall junc d (if_measure d st.mouse)
          (get_num_value numTok) st).mouse = iter_move d k st.mouse ∧
      (if_run wall junc d (if_measure d st.mouse)
          (get_num_value numTok) st).actions =
        st.actions ++ List.replicate k d ∧
      (if_run wall junc d (if_measure d st.mouse)
          (get_num_value numTok) st).wall_cols = st.wall_cols ∧
      (if_run wall junc d (if_measure d st.mouse)
          (get_num_value numTok) st).action_idx = st.action_idx + k ∧
      (∀ j, j < k → movable wall (iter_move d j st.mouse) d) ∧
      (∀ j, j < k →
        (junc_count junc d st.mouse j : Int) < get_num_value numTok) ∧
      ((junc_count junc d st.mouse k : Int) = get_num_value numTok ∨
       ((junc_count junc d st.mouse k : Int) < get_num_value numTok ∧
         ¬ movable wall (iter_move d k st.mouse) d)) := by
  have hNpos : (0 : Int) < get_num_value numTok := by
    obtain ⟨h1, h2⟩ := hnum
    have : numTok ≠ 100 := by omega
    simp [get_num_value, this]
    omega
  constructor
  · rw [pc_step_await_if_num rfl hnum]
    rw [pc_step_if_exec
      (by show numTok ≠ 0; obtain ⟨h1, h2⟩ := hnum; omega)
      (by show numTok ≠ 110; obtain ⟨h1, h2⟩ := hnum; omega)
      (by show numTok ≠ 5; obtain ⟨h1, h2⟩ := hnum; omega) rfl hnum hd]
  · obtain ⟨k, m1, m2, m3, m4, m5, m6, m7⟩ :=
      if_run_spec wall junc d hd (if_measure d st.mouse)
        (get_num_value numTok) st (le_refl _)
    refine ⟨k, m1, m2, m3, m4, m5, m6, ?_⟩
    rcases m7 with h | h | h
    · exact Or.inl h
    · exact Or.inr h
    · omega

/-- Witness for C4: count token 101 (N = 1) and direction RIGHT from (5,5)
on the all-open grid. -/
theorem c4_conditional_run_w :
    (pc_go grid0 grid0 [] [] (fun _ _ => none) [101, 3] ⟨5, 0, 0⟩
        ⟨⟨5, 5⟩, [], [], 0⟩ =
      pc_go grid0 grid0 [] [] (fun _ _ => none) [] ⟨0, 0, get_num_value 101⟩
        (if_run grid0 grid0 3 (if_measure 3 ⟨5, 5⟩) (get_num_value 101)
          ⟨⟨5, 5⟩, [], [], 0⟩)) ∧
    ∃ k : Nat,
      (if_run grid0 grid0 3 (if_measure 3 ⟨5, 5⟩) (get_num_value 101)
          ⟨⟨5, 5⟩, [], [], 0⟩).mouse = iter_move 3 k ⟨5, 5⟩ ∧
      (if_run grid0 grid0 3 (if_measure 3 ⟨5, 5⟩) (get_num_value 101)
          ⟨⟨5, 5⟩, [], [], 0⟩).actions = [] ++ List.replicate k 3 ∧
      (if_run grid0 grid0 3 (if_measure 3 ⟨5, 5⟩) (get_num_value 101)
          ⟨⟨5, 5⟩, [], [], 0⟩).wall_cols = [] ∧
      (if_run grid0 grid0 3 (if_measure 3 ⟨5, 5⟩) (get_num_value 101)
          ⟨⟨5, 5⟩, [], [], 0⟩).action_idx = 0 + k ∧
      (∀ j, j < k → movable grid0 (iter_move 3 j ⟨5, 5⟩) 3) ∧
      (∀ j, j < k →
        (junc_count grid0 3 ⟨5, 5⟩ j : Int) < get_num_value 101) ∧
      ((junc_count grid0 3 ⟨5, 5⟩ k : Int) = get_num_value 101 ∨
       ((junc_count grid0 3 ⟨5, 5⟩ k : Int) < get_num_value 101 ∧
         ¬ movable grid0 (iter_move 3 k ⟨5, 5⟩) 3)) :=
  c4_conditional_run grid0 grid0 [] [] (fun _ _ => none) 101 3
    (by decide) (by decide) [] 0 0 ⟨⟨5, 5⟩, [], [], 0⟩

/-! Claim C2: the pre-computation pass versus the per-tick cat AI. -/

theorem move_pos_valid {p : Pos} {d : Int} (h : (p.move d).is_valid) :
    move_pos p d = p.move d := by
  obtain ⟨a, b, c, e⟩ := h
  show (⟨clamp01 (p.move d).x, clamp01 (p.move d).y⟩ : Pos) =
    ⟨(p.move d).x, (p.move d).y⟩
  simp only [Pos.mk.injEq, clamp01]
  constructor <;> omega

theorem probe_agree (wall : Grid) (rng : Nat → Nat) (p : Pos) (d : Int) :
    ∀ (t k : Nat),
      cat_probe wall rng t k p d =
        match blocked_probe wall rng p t k with
        | (some q, k') => (q.1, q.2, k')
        | (none, k') => (p, d, k') := by
  intro t
  induction t with
  | zero => intro k; rfl
  | succ n ih =>
    intro k
    simp only [cat_probe, blocked_probe]
    by_cases h : (p.move ((rng k : Int) % 4)).is_valid ∧
        readG wall (p.move ((rng k : Int) % 4)) = 0 <;>
      simp [h, ih]

/-- Counterexample for C2 as stated: the pre-computation pass does not run
the same cascade as the per-tick pursuer AI.  A cat standing on a dead-end
cell (not a junction) with a passable cell ahead is moved by the
pre-computation pass (continue-straight, no randomness involved), while
move_single_cat halts it on the dead-end rule; the distance map is the real
BFS map from (0,0), far outside the red zone. -/
theorem c2_cex_precalc_ignores_deadend :
    (cat_virtual_step grid0 grid0 (fun _ => 0) ⟨5, 5⟩ 1 0).1 = ⟨6, 5⟩ ∧
    (move_single_cat grid0 grid0 (writeG grid0 ⟨5, 5⟩ 1) 5
        (compute_distance_map grid0 0 0) (fun _ => 0) 0
        ⟨⟨5, 5⟩, ⟨5, 5⟩, 1, true⟩).1.pos = ⟨5, 5⟩ ∧
    ((⟨6, 5⟩ : Pos) ≠ ⟨5, 5⟩) ∧
    readG (writeG grid0 ⟨5, 5⟩ 1) ⟨5, 5⟩ ≠ 0 := by
  refine ⟨by decide, by decide, by decide, by decide⟩

/-- Claim C2 (amended): the pre-computation pass runs a reduced cascade on
private virtual copies of the cat positions and directions: junction turn by
bounded rejection sampling excluding the reverse direction, else
continue-straight, else the bounded random probe; it omits the dead-end halt
and the red-zone flee rule entirely.  On a cell that is neither a dead end
nor a junction and whose distance-map value does not trigger the flee rule,
one virtual step agrees exactly with move_single_cat (same new position,
same facing, same random-stream consumption). -/
theorem c2_virtual_step_agrees_outside_special (wall junc deadend : Grid)
    (red_zone : Int) (dmap : Grid) (rng : Nat → Nat) (k : Nat) (cat : Entity)
    (hde : readG deadend cat.pos = 0)
    (hj : readG junc cat.pos = 0)
    (hfl : ¬ (readG dmap cat.pos > 0 ∧ readG dmap cat.pos ≤ red_zone)) :
    (cat_virtual_step wall junc rng cat.pos cat.direction k).1 =
      (move_single_cat wall junc deadend red_zone dmap rng k cat).1.pos ∧
    (cat_virtual_step wall junc rng cat.pos cat.direction k).2.1 =
      (move_single_cat wall junc deadend red_zone dmap rng k cat).1.direction ∧
    (cat_virtual_step wall junc rng cat.pos cat.direction k).2.2.2 =
      (move_single_cat wall junc deadend red_zone dmap rng k cat).2 := by
  unfold cat_virtual_step move_single_cat
  simp only [hde, hj, if_neg hfl]
  by_cases hmv : movable wall cat.pos cat.direction
  · have hmv' : (cat.pos.move cat.direction).is_valid ∧
        readG wall (cat.pos.move cat.direction) = 0 := hmv
    simp [movable, hmv', hmv, move_pos_valid hmv'.1]
  · have hmv' : ¬ ((cat.pos.move cat.direction).is_valid ∧
        readG wall (cat.pos.move cat.direction) = 0) := hmv
    simp only [movable, if_neg hmv', if_neg hmv]
    rw [probe_agree wall rng cat.pos cat.direction 100 k]
    rcases hb : blocked_probe wall rng cat.pos 100 k with ⟨_ | q, k'⟩ <;>
      simp [hb]

/-- Witness for C2 (amended): a cat at (5,5) on the all-open grid with the
real distance map from (0,0). -/
theorem c2_virtual_step_agrees_outside_special_w :
    (cat_virtual_step grid0 grid0 (fun _ => 0) (⟨5, 5⟩ : Pos) 1 0).1 =
      (move_single_cat grid0 grid0 grid0 5 (compute_distance_map grid0 0 0)
        (fun _ => 0) 0 ⟨⟨5, 5⟩, ⟨5, 5⟩, 1, true⟩).1.pos ∧
    (cat_virtual_step grid0 grid0 (fun _ => 0) (⟨5, 5⟩ : Pos) 1 0).2.1 =
      (move_single_cat grid0 grid0 grid0 5 (compute_distance_map grid0 0 0)
        (fun _ => 0) 0 ⟨⟨5, 5⟩, ⟨5, 5⟩, 1, true⟩).1.direction ∧
    (cat_virtual_step grid0 grid0 (fun _ => 0) (⟨5, 5⟩ : Pos) 1 0).2.2.2 =
      (move_single_cat grid0 grid0 grid0 5 (compute_distance_map grid0 0 0)
        (fun _ => 0) 0 ⟨⟨5, 5⟩, ⟨5, 5⟩, 1, true⟩).2 :=
  c2_virtual_step_agrees_outside_special grid0 grid0 grid0 5
    (compute_distance_map grid0 0 0) (fun _ => 0) 0
    ⟨⟨5, 5⟩, ⟨5, 5⟩, 1, true⟩ (by decide) (by decide) (by decide)

/-! Claim C7: score effects after the life-zero stop. -/

set_option maxRecDepth 8000 in
/-- Claim C7 (code bug): on the tick where the mouse steps onto the last
cheese, is caught by the cat sitting there, and life reaches zero, the loop
does stop on that tick, but the post-loop victory re-check (simulator.cpp
lines 821-826) ignores how the loop exited and still adds the victory bonus
run*10+step = 71: the returned score is 0 - 500 + 10 + 71 = -419, a score
effect applied after the terminal tick's pursuer collision, although the
code comment and the spec both say the re-check is for normal loop exit
only. -/
theorem c7_eval_bonus_after_death :
    (simulate_program 1 [3, 112] simC7).map Prod.fst = some (-419) ∧
    (-419 : Int) = 0 + (-500) + 10 + (7 * 10 + 1) := by
  constructor
  · rfl
  · norm_num

end MouseSim
